import Mathlib

/-!
# k8s-old-pod-killer: a shallow embedding of `cmd/k8s-old-pod-killer/main.go`

The program enforces a maximum pod lifetime.  Its two functions with
behaviour of their own are `getConfig` (configuration normalization) and
`performCheckAndKill` (the per-target loop).  Both talk to the outside world
(the file system, the clock, the Kubernetes API server), so the embedding
passes the answers of the outside world in explicitly and returns the calls
made, in order, as a list of `Event`s.

* Durations (`time.Duration`, an `int64` count of nanoseconds) and instants are
  `Int` nanoseconds.  The only arithmetic on them is `time.Since`, whose
  saturation at the `int64` bounds is modelled by `timeSince`.
* `killCount` (an `int64`) is an `Int`: it is incremented at most once per
  element of a Go slice, whose length fits in an `int64`, so it never wraps.
* The infinite `for` loop of `performCheckAndKill` is run with fuel: one unit
  of fuel per iteration.
-/

namespace OldPodKiller

/-! ## Data model (main.go lines 18-45) -/

/-- The `TargetKind` string type. -/
abbrev TargetKind := String

/-- The `TargetInfo` struct. -/
structure TargetInfo where
  Kind : TargetKind
  NameSpace : String
  Name : String
  MaxLife : Int
  Interval : Int
  BatchMaxKill : Int
deriving DecidableEq, Repr

/-- The `Config` struct. -/
structure Config where
  Dryrun : Bool
  BatchMode : Bool
  DefaultInterval : Int
  Targets : List TargetInfo
deriving DecidableEq, Repr

def DAEMONSET : TargetKind := "daemonset"
def DEPLOYMENT : TargetKind := "deployment"
def STATEFULSET : TargetKind := "statefulset"

/-- The constant `time.Second`, in nanoseconds. -/
def Second : Int := 1000000000

/-- The constant `time.Hour`, in nanoseconds. -/
def Hour : Int := 3600 * Second

/-- Smallest value of a `time.Duration`. -/
def minDuration : Int := -(2 ^ 63)

/-- Largest value of a `time.Duration`. -/
def maxDuration : Int := 2 ^ 63 - 1

/-- The library call `time.Since(t)` with the clock reading `now`: the
difference `now - t`, saturated to the range of a `time.Duration`. -/
def timeSince (now t : Int) : Int :=
  if now - t < minDuration then minDuration
  else if maxDuration < now - t then maxDuration
  else now - t

/-- Modelled from the spec: the pod record of the listing call
(`k8s.io/api/core/v1.Pod`, declared outside this repository).  The spec's
list-pods interface gives every pod a name, a namespace, a phase and a start
time; these are the only fields `performCheckAndKill` reads.  `StartTime` is
the instant `pod.Status.StartTime.Time` in nanoseconds.  The program reads it
for Running pods only, and a Running pod is taken to carry one (the Go field
is a pointer, which the program dereferences without a nil test). -/
structure Pod where
  Name : String
  Namespace : String
  Phase : String
  StartTime : Int
deriving DecidableEq, Repr

/-- The `metav1.LabelSelector` of a controller object (declared outside this
repository).  The program only passes it on to the library, so a list of
label requirements stands for it. -/
structure LabelSelector where
  MatchLabels : List (String × String)
deriving DecidableEq, Repr

/-! ## The outside world -/

/-- The pure library functions the program calls. -/
structure Lib where
  /-- The function `strings.ToLower`. -/
  ToLower : String → String
  /-- The call `metav1.LabelSelectorAsSelector(sel)` followed by `.String()` on
  its result; `.error` is the `err` of the conversion. -/
  LabelSelectorAsSelector : LabelSelector → Except String String

/-- The answers of the cluster and of the clock during ONE iteration of the
loop of `performCheckAndKill`.  A failed call is `.error` (for `Evict`:
`some err`).  `Evict i pod` and `Now i` are the outcome of the eviction call
and the clock reading made while the loop is at position `i` of the listing,
so that every call of an iteration can be answered independently. -/
structure Cluster where
  /-- The call `AppsV1().DaemonSets(ns).Get(name)`: the `Spec.Selector` pointer
  of the object, or the error. -/
  GetDaemonSet : String → String → Except String (Option LabelSelector)
  /-- The call `AppsV1().Deployments(ns).Get(name)`. -/
  GetDeployment : String → String → Except String (Option LabelSelector)
  /-- The call `AppsV1().StatefulSets(ns).Get(name)`. -/
  GetStatefulSet : String → String → Except String (Option LabelSelector)
  /-- The call `CoreV1().Pods(ns).List` with `LabelSelector: sel`. -/
  ListPods : String → String → Except String (List Pod)
  /-- The call `CoreV1().Pods(pod.Namespace).Evict` for the pod at position `i`. -/
  Evict : Nat → Pod → Option String
  /-- The clock reading of `time.Since` for the pod at position `i`. -/
  Now : Nat → Int

/-- The log lines of `performCheckAndKill`, one constructor per `log.Printf`
or `log.Println` statement, carrying the values it prints. -/
inductive LogLine where
  | started (ns : String) (kind : TargetKind) (name : String) (maxLife interval : Int)
  | stopped (ns : String) (kind : TargetKind) (name : String)
  | unsupportedKind (kind : TargetKind)
  | selectorNil (ns : String) (kind : TargetKind) (name : String)
  | selectorError (err : String)
  | cantDelete (podName : String) (err : String)
  | dryrunOn
  | deleted (podName : String) (podNamespace : String)
  | killed (ns : String) (kind : TargetKind) (name : String) (killCount : Int)
  | batchModeExit
deriving DecidableEq, Repr

/-- What `performCheckAndKill` does to the outside world, in order. -/
inductive Event where
  | getDaemonSet (ns name : String)
  | getDeployment (ns name : String)
  | getStatefulSet (ns name : String)
  | listPods (ns : String) (labelSelector : String)
  /-- The eviction call, made in `pod.Namespace` with the metadata of `pod`. -/
  | evict (pod : Pod)
  | sleep (d : Int)
  | log (line : LogLine)
  | wgDone
deriving DecidableEq, Repr

/-! ## Selector lookup (main.go lines 37-72 and 89-99) -/

/-- The method `TargetKind.ToLower`. -/
def TargetKind.ToLower (lib : Lib) (t : TargetKind) : TargetKind :=
  lib.ToLower t

/-- The function `getDaemonsetPodSelector`: `nil` when the fetch fails. -/
def getDaemonsetPodSelector (c : Cluster) (ns name : String) : Option LabelSelector :=
  match c.GetDaemonSet ns name with
  | .error _ => none
  | .ok selector => selector

/-- The function `getDeploymentPodSelector`: `nil` when the fetch fails. -/
def getDeploymentPodSelector (c : Cluster) (ns name : String) : Option LabelSelector :=
  match c.GetDeployment ns name with
  | .error _ => none
  | .ok selector => selector

/-- The function `getStatefulsetPodSelector`: `nil` when the fetch fails. -/
def getStatefulsetPodSelector (c : Cluster) (ns name : String) : Option LabelSelector :=
  match c.GetStatefulSet ns name with
  | .error _ => none
  | .ok selector => selector

/-- The `switch targetInfo.Kind.ToLower()` of lines 89-99: the API call made
and the value assigned to `targetLabel`, or `none` for the `default` branch. -/
def lookupSelector (lib : Lib) (c : Cluster) (targetInfo : TargetInfo) :
    Option (Event × Option LabelSelector) :=
  if TargetKind.ToLower lib targetInfo.Kind = DAEMONSET then
    some (.getDaemonSet targetInfo.NameSpace targetInfo.Name,
          getDaemonsetPodSelector c targetInfo.NameSpace targetInfo.Name)
  else if TargetKind.ToLower lib targetInfo.Kind = DEPLOYMENT then
    some (.getDeployment targetInfo.NameSpace targetInfo.Name,
          getDeploymentPodSelector c targetInfo.NameSpace targetInfo.Name)
  else if TargetKind.ToLower lib targetInfo.Kind = STATEFULSET then
    some (.getStatefulSet targetInfo.NameSpace targetInfo.Name,
          getStatefulsetPodSelector c targetInfo.NameSpace targetInfo.Name)
  else none

/-! ## The eviction loop (main.go lines 112-141) -/

/-- The value `pods.Items` after line 113.  The typed client returns a freshly
allocated, empty `PodList` together with the error when the request fails, and
the program does not look at `err`. -/
def podItems (c : Cluster) (ns labelSelector : String) : List Pod :=
  match c.ListPods ns labelSelector with
  | .error _ => []
  | .ok items => items

/-- Lines 120-134 for one pod that passed both tests: the events of the
attempt, and whether the loop goes on to `killCount++` (`false` is the `break`
of line 129). -/
def attempt (c : Cluster) (dryrun : Bool) (i : Nat) (pod : Pod) : List Event × Bool :=
  if !dryrun then
    match c.Evict i pod with
    | some err => ([.evict pod, .log (.cantDelete pod.Name err)], false)
    | none => ([.evict pod, .log (.deleted pod.Name pod.Namespace)], true)
  else
    ([.log .dryrunOn, .log (.deleted pod.Name pod.Namespace)], true)

/-- The loop `for _, pod := range pods.Items` of lines 114-141, started at
position `i` of the listing with the current `killCount`; returns the events
and the final `killCount`. -/
def evictLoop (c : Cluster) (targetInfo : TargetInfo) (dryrun : Bool) :
    Nat → List Pod → Int → List Event × Int
  | _, [], killCount => ([], killCount)
  | i, pod :: rest, killCount =>
    if pod.Phase ≠ "Running" then
      evictLoop c targetInfo dryrun (i + 1) rest killCount
    else if timeSince (c.Now i) pod.StartTime > targetInfo.MaxLife then
      match attempt c dryrun i pod with
      | (evs, false) => (evs, killCount)
      | (evs, true) =>
        if targetInfo.BatchMaxKill > 0 ∧ killCount + 1 ≥ targetInfo.BatchMaxKill then
          (evs, killCount + 1)
        else
          let r := evictLoop c targetInfo dryrun (i + 1) rest (killCount + 1)
          (evs ++ r.1, r.2)
    else
      evictLoop c targetInfo dryrun (i + 1) rest killCount

/-! ## The target loop (main.go lines 79-152) -/

/-- One pass through the body of the `for` loop (lines 88-150): the events,
and `true` when the pass ends in a `return`, `false` when it ends in
`time.Sleep` and the loop goes round again. -/
def iteration (lib : Lib) (c : Cluster) (targetInfo : TargetInfo) (dryrun batchMode : Bool) :
    List Event × Bool :=
  match lookupSelector lib c targetInfo with
  | none => ([.log (.unsupportedKind targetInfo.Kind)], true)
  | some (call, none) =>
    ([call, .log (.selectorNil targetInfo.NameSpace targetInfo.Kind targetInfo.Name)], true)
  | some (call, some targetLabel) =>
    match lib.LabelSelectorAsSelector targetLabel with
    | .error err => ([call, .log (.selectorError err)], true)
    | .ok targetLabelSelector =>
      let r := evictLoop c targetInfo dryrun 0
        (podItems c targetInfo.NameSpace targetLabelSelector) 0
      let evs := [call, .listPods targetInfo.NameSpace targetLabelSelector] ++ r.1 ++
        [.log (.killed targetInfo.NameSpace targetInfo.Kind targetInfo.Name r.2)]
      if batchMode then (evs ++ [.log .batchModeExit], true)
      else (evs ++ [.sleep targetInfo.Interval], false)

/-- The `for` loop of `performCheckAndKill` from iteration number `i` on, with
one unit of fuel per iteration; `world i` answers the calls of iteration `i`.
The second component is `true` when the loop has returned and `false` when
the fuel ran out first. -/
def loop (lib : Lib) (world : Nat → Cluster) (targetInfo : TargetInfo) (dryrun batchMode : Bool) :
    Nat → Nat → List Event × Bool
  | 0, _ => ([], false)
  | fuel + 1, i =>
    match iteration lib (world i) targetInfo dryrun batchMode with
    | (evs, true) => (evs, true)
    | (evs, false) =>
      let r := loop lib world targetInfo dryrun batchMode fuel (i + 1)
      (evs ++ r.1, r.2)

/-- The log line of line 85, written before the loop starts. -/
def startedEvent (targetInfo : TargetInfo) : Event :=
  .log (.started targetInfo.NameSpace targetInfo.Kind targetInfo.Name
    targetInfo.MaxLife targetInfo.Interval)

/-- The deferred function of lines 80-83, run when the function returns. -/
def deferredEvents (targetInfo : TargetInfo) : List Event :=
  [.log (.stopped targetInfo.NameSpace targetInfo.Kind targetInfo.Name), .wgDone]

/-- The function `performCheckAndKill`: the start-up log line, the loop, and
on return the deferred log line and `wg.Done()`.  The second component is
`true` when the function has returned within `fuel` iterations. -/
def performCheckAndKill (lib : Lib) (world : Nat → Cluster) (fuel : Nat)
    (targetInfo : TargetInfo) (dryrun batchMode : Bool) : List Event × Bool :=
  let r := loop lib world targetInfo dryrun batchMode fuel 0
  if r.2 then (startedEvent targetInfo :: r.1 ++ deferredEvents targetInfo, true)
  else (startedEvent targetInfo :: r.1, false)

/-! ## Configuration (main.go lines 154-183) -/

/-- What `getConfig` reads from the outside world. -/
structure ConfigSource where
  /-- The value of `os.Getenv("CONFIG_PATH")`. -/
  CONFIG_PATH : String
  /-- The call `ioutil.ReadFile`. -/
  ReadFile : String → Except String String
  /-- The call `yaml.Unmarshal` into a zero `Config`. -/
  Unmarshal : String → Except String Config

/-- The body of the loop `for i := range config.Targets` (lines 174-179). -/
def clampTarget (defaultInterval : Int) (t : TargetInfo) : TargetInfo :=
  let t := if t.MaxLife < 10 * Second then { t with MaxLife := 10 * Second } else t
  if t.Interval < 10 * Second then { t with Interval := defaultInterval } else t

/-- The function `getConfig`; `.error` is a `log.Fatalln`. -/
def getConfig (src : ConfigSource) : Except String Config :=
  let configPath := if src.CONFIG_PATH = "" then "/config/config.yaml" else src.CONFIG_PATH
  match src.ReadFile configPath with
  | .error err => .error ("Read config file error: " ++ err)
  | .ok configFile =>
    match src.Unmarshal configFile with
    | .error err => .error ("Parse config file error: " ++ err)
    | .ok config =>
      let config := if config.DefaultInterval < 10 * Second
        then { config with DefaultInterval := 10 * Second } else config
      .ok { config with Targets := config.Targets.map (clampTarget config.DefaultInterval) }

/-! ## Reading a trace -/

/-- The pods of the eviction calls of a trace, in order. -/
def evictCalls : List Event → List Pod
  | [] => []
  | .evict pod :: es => pod :: evictCalls es
  | _ :: es => evictCalls es

/-- The (namespace, label selector) pairs of the pod-listing calls of a trace. -/
def listCalls : List Event → List (String × String)
  | [] => []
  | .listPods ns sel :: es => (ns, sel) :: listCalls es
  | _ :: es => listCalls es

/-- The selector lookups (controller `Get` calls) of a trace, in order. -/
def selectorLookups : List Event → List Event
  | [] => []
  | .getDaemonSet ns name :: es => .getDaemonSet ns name :: selectorLookups es
  | .getDeployment ns name :: es => .getDeployment ns name :: selectorLookups es
  | .getStatefulSet ns name :: es => .getStatefulSet ns name :: selectorLookups es
  | _ :: es => selectorLookups es

/-- The durations of the `time.Sleep` calls of a trace, in order. -/
def sleeps : List Event → List Int
  | [] => []
  | .sleep d :: es => d :: sleeps es
  | _ :: es => sleeps es

/-- The kill counts reported by the "killed %d pod(s)" log lines of a trace. -/
def reportedKills : List Event → List Int
  | [] => []
  | .log (.killed _ _ _ n) :: es => n :: reportedKills es
  | _ :: es => reportedKills es

/-- The (name, namespace) pairs of the "Deleted Pod" log lines of a trace. -/
def deletedLogs : List Event → List (String × String)
  | [] => []
  | .log (.deleted name ns) :: es => (name, ns) :: deletedLogs es
  | _ :: es => deletedLogs es

/-! ## The spec's candidate sequence -/

/-- The spec's candidate sequence (section 3, PodCandidate): the pods of the
listing that are Running and whose age exceeds `MaxLife`, in listing order,
each with its position in the listing (positions start at `i`). -/
def candidates (c : Cluster) (targetInfo : TargetInfo) : Nat → List Pod → List (Nat × Pod)
  | _, [] => []
  | i, pod :: rest =>
    if pod.Phase = "Running" ∧ timeSince (c.Now i) pod.StartTime > targetInfo.MaxLife then
      (i, pod) :: candidates c targetInfo (i + 1) rest
    else candidates c targetInfo (i + 1) rest

/-- The eligible pods of a listing: the candidate sequence without positions. -/
def eligible (c : Cluster) (targetInfo : TargetInfo) (pods : List Pod) : List Pod :=
  (candidates c targetInfo 0 pods).map Prod.snd

/-- The spec's batch cap (section 4.3): the first `batchMaxKill` elements when
`batchMaxKill > 0`, everything otherwise. -/
def capped {α : Type} (batchMaxKill : Int) (l : List α) : List α :=
  if batchMaxKill > 0 then l.take batchMaxKill.toNat else l

/-- The events of one successful (or, in dry-run mode, simulated) eviction. -/
def evictedEvents (dryrun : Bool) (pod : Pod) : List Event :=
  if dryrun then [.log .dryrunOn, .log (.deleted pod.Name pod.Namespace)]
  else [.evict pod, .log (.deleted pod.Name pod.Namespace)]

/-- The events of a run of successful (or simulated) evictions. -/
def evictedTrace (dryrun : Bool) : List Pod → List Event
  | [] => []
  | pod :: rest => evictedEvents dryrun pod ++ evictedTrace dryrun rest

/-- The eviction loop walked over the candidate sequence instead of the
listing: the attempt, the `break` on failure and the batch cap, nothing else. -/
def runCandidates (c : Cluster) (targetInfo : TargetInfo) (dryrun : Bool) :
    List (Nat × Pod) → Int → List Event × Int
  | [], killCount => ([], killCount)
  | (i, pod) :: rest, killCount =>
    match attempt c dryrun i pod with
    | (evs, false) => (evs, killCount)
    | (evs, true) =>
      if targetInfo.BatchMaxKill > 0 ∧ killCount + 1 ≥ targetInfo.BatchMaxKill then
        (evs, killCount + 1)
      else
        let r := runCandidates c targetInfo dryrun rest (killCount + 1)
        (evs ++ r.1, r.2)

/-- The events of one pass after the listing call: the eviction loop over
the listing obtained with selector `sel`, then the kill-count log line. -/
def passEvents (c : Cluster) (targetInfo : TargetInfo) (dryrun : Bool) (sel : String) :
    List Event :=
  (evictLoop c targetInfo dryrun 0 (podItems c targetInfo.NameSpace sel) 0).1 ++
    [.log (.killed targetInfo.NameSpace targetInfo.Kind targetInfo.Name
      (evictLoop c targetInfo dryrun 0 (podItems c targetInfo.NameSpace sel) 0).2)]

/-- The last event of a pass that reached the listing: the batch-mode log
line before the `return`, or the sleep before the next iteration. -/
def passEnd (targetInfo : TargetInfo) (batchMode : Bool) : Event :=
  if batchMode then .log .batchModeExit else .sleep targetInfo.Interval

/-! ## Concrete scenarios -/

/-- A library for the scenarios: ASCII lower-casing, and a selector rendered
as its first `key=value` pair. -/
def demoLib : Lib where
  ToLower := fun s => String.mk (s.data.map Char.toLower)
  LabelSelectorAsSelector := fun sel =>
    match sel.MatchLabels with
    | [] => .ok ""
    | (k, v) :: _ => .ok (k ++ "=" ++ v)

/-- A Running pod called `name` in namespace `ns1`, started at `start`. -/
def runningPod (name : String) (start : Int) : Pod :=
  { Name := name, Namespace := "ns1", Phase := "Running", StartTime := start }

/-- A cluster whose deployments all have the selector `app=<label>`, whose
listing is `pods`, whose evictions answer `evict` and whose clock always reads
`now`. -/
def demoCluster (label : String) (pods : List Pod) (evict : Nat → Pod → Option String)
    (now : Int) : Cluster where
  GetDaemonSet := fun _ _ => .error "not found"
  GetDeployment := fun _ _ => .ok (some { MatchLabels := [("app", label)] })
  GetStatefulSet := fun _ _ => .error "not found"
  ListPods := fun _ _ => .ok pods
  Evict := evict
  Now := fun _ => now

/-- The target of the spec's concrete scenario, with a given batch cap. -/
def apiTarget (batchMaxKill : Int) : TargetInfo :=
  { Kind := "Deployment", NameSpace := "ns1", Name := "api", MaxLife := 1 * Hour,
    Interval := 60 * Second, BatchMaxKill := batchMaxKill }

/-- The pod aged 2h at clock reading `10 * Hour`. -/
def podOld : Pod := runningPod "api-old" (8 * Hour)

/-- The pod aged 30m at clock reading `10 * Hour`. -/
def podYoung : Pod := runningPod "api-young" (10 * Hour - 30 * 60 * Second)

/-- Five pods, all aged 2h or more at clock reading `10 * Hour`. -/
def fiveOld : List Pod :=
  [runningPod "p0" (8 * Hour), runningPod "p1" (7 * Hour), runningPod "p2" (6 * Hour),
   runningPod "p3" (5 * Hour), runningPod "p4" (4 * Hour)]

/-- A parsed configuration with everything left unset except the target's
identity and a `batch_max_kill` of -1. -/
def negativeCapConfig : Config :=
  { Dryrun := false, BatchMode := false, DefaultInterval := 0,
    Targets := [{ Kind := "Deployment", NameSpace := "ns1", Name := "api", MaxLife := 0,
                  Interval := 0, BatchMaxKill := -1 }] }

/-- A configuration source: `CONFIG_PATH` unset, a file at the default path,
parsed to `negativeCapConfig`. -/
def negativeCapSource : ConfigSource where
  CONFIG_PATH := ""
  ReadFile := fun path =>
    if path = "/config/config.yaml" then .ok "batch_max_kill: -1" else .error "no such file"
  Unmarshal := fun _ => .ok negativeCapConfig

/-- An eviction answer that refuses the call made at position 2 of the listing
and accepts every other call. -/
def failAtTwo : Nat → Pod → Option String :=
  fun i _ => if i = 2 then some "disruption budget" else none

/-- A cluster in which no controller object can be fetched. -/
def emptyCluster : Cluster where
  GetDaemonSet := fun _ _ => .error "not found"
  GetDeployment := fun _ _ => .error "not found"
  GetStatefulSet := fun _ _ => .error "not found"
  ListPods := fun _ _ => .ok []
  Evict := fun _ _ => none
  Now := fun _ => 0

/-- A cluster whose deployment selector is `app=api`, whose pod-listing call
fails, and which would accept every eviction. -/
def brokenListCluster : Cluster where
  GetDaemonSet := fun _ _ => .error "not found"
  GetDeployment := fun _ _ => .ok (some { MatchLabels := [("app", "api")] })
  GetStatefulSet := fun _ _ => .error "not found"
  ListPods := fun _ _ => .error "timeout"
  Evict := fun _ _ => none
  Now := fun _ => 10 * Hour

/-- A run in which every controller is relabelled between the first and the
second iteration: the daemon sets select `app=agent`, the deployments
`app=api` and the stateful sets `app=db` during the first iteration, and
`app=agent-v2`, `app=api-v2` and `app=db-v2` from the second iteration on. -/
def relabelledWorld : Nat → Cluster := fun n =>
  { GetDaemonSet := fun _ _ =>
      .ok (some { MatchLabels := [("app", if n = 0 then "agent" else "agent-v2")] })
    GetDeployment := fun _ _ =>
      .ok (some { MatchLabels := [("app", if n = 0 then "api" else "api-v2")] })
    GetStatefulSet := fun _ _ =>
      .ok (some { MatchLabels := [("app", if n = 0 then "db" else "db-v2")] })
    ListPods := fun _ _ => .ok [podOld, podYoung]
    Evict := fun _ _ => none
    Now := fun _ => 10 * Hour }

/-- A stateful-set target. -/
def dbTarget : TargetInfo :=
  { Kind := "StatefulSet", NameSpace := "ns1", Name := "db", MaxLife := 1 * Hour,
    Interval := 60 * Second, BatchMaxKill := 1 }

/-- A daemon-set target. -/
def agentTarget : TargetInfo :=
  { Kind := "DaemonSet", NameSpace := "ns1", Name := "agent", MaxLife := 1 * Hour,
    Interval := 60 * Second, BatchMaxKill := 1 }

/-- The cluster `c` with its pod-listing call answered by the empty list. -/
def withEmptyListing (c : Cluster) : Cluster :=
  { c with ListPods := fun _ _ => .ok [] }

/-! ## Lemmas on traces -/

theorem evictCalls_append (a b : List Event) :
    evictCalls (a ++ b) = evictCalls a ++ evictCalls b := by
  induction a with
  | nil => rfl
  | cons e es ih => cases e <;> simp [evictCalls, ih]

theorem listCalls_append (a b : List Event) :
    listCalls (a ++ b) = listCalls a ++ listCalls b := by
  induction a with
  | nil => rfl
  | cons e es ih => cases e <;> simp [listCalls, ih]

theorem selectorLookups_append (a b : List Event) :
    selectorLookups (a ++ b) = selectorLookups a ++ selectorLookups b := by
  induction a with
  | nil => rfl
  | cons e es ih => cases e <;> simp [selectorLookups, ih]

theorem sleeps_append (a b : List Event) : sleeps (a ++ b) = sleeps a ++ sleeps b := by
  induction a with
  | nil => rfl
  | cons e es ih => cases e <;> simp [sleeps, ih]

theorem reportedKills_append (a b : List Event) :
    reportedKills (a ++ b) = reportedKills a ++ reportedKills b := by
  induction a with
  | nil => rfl
  | cons e es ih =>
    cases e with
    | log line => cases line <;> simp [reportedKills, ih]
    | _ => simp [reportedKills, ih]

theorem deletedLogs_append (a b : List Event) :
    deletedLogs (a ++ b) = deletedLogs a ++ deletedLogs b := by
  induction a with
  | nil => rfl
  | cons e es ih =>
    cases e with
    | log line => cases line <;> simp [deletedLogs, ih]
    | _ => simp [deletedLogs, ih]

theorem evictedTrace_append (dryrun : Bool) (a b : List Pod) :
    evictedTrace dryrun (a ++ b) = evictedTrace dryrun a ++ evictedTrace dryrun b := by
  induction a with
  | nil => rfl
  | cons p ps ih => simp [evictedTrace, ih]

theorem evictCalls_evictedTrace_real (pods : List Pod) :
    evictCalls (evictedTrace false pods) = pods := by
  induction pods with
  | nil => rfl
  | cons p ps ih => simp [evictedTrace, evictedEvents, evictCalls, ih]

theorem evictCalls_evictedTrace_dryrun (pods : List Pod) :
    evictCalls (evictedTrace true pods) = [] := by
  induction pods with
  | nil => rfl
  | cons p ps ih => simp [evictedTrace, evictedEvents, evictCalls, ih]

theorem deletedLogs_evictedTrace (dryrun : Bool) (pods : List Pod) :
    deletedLogs (evictedTrace dryrun pods) = pods.map (fun p => (p.Name, p.Namespace)) := by
  induction pods with
  | nil => rfl
  | cons p ps ih => cases dryrun <;> simp [evictedTrace, evictedEvents, deletedLogs, ih]

theorem listCalls_evictedTrace (dryrun : Bool) (pods : List Pod) :
    listCalls (evictedTrace dryrun pods) = [] := by
  induction pods with
  | nil => rfl
  | cons p ps ih => cases dryrun <;> simp [evictedTrace, evictedEvents, listCalls, ih]

/-! ## The eviction loop and the candidate sequence -/

/-- The eviction loop over a listing is the walk over its candidate sequence. -/
theorem evictLoop_eq_runCandidates (c : Cluster) (t : TargetInfo) (dryrun : Bool)
    (pods : List Pod) : ∀ (i : Nat) (killCount : Int),
    evictLoop c t dryrun i pods killCount
      = runCandidates c t dryrun (candidates c t i pods) killCount := by
  induction pods with
  | nil => intro i k; rfl
  | cons pod rest ih =>
    intro i k
    by_cases hrun : pod.Phase = "Running"
    · by_cases hage : timeSince (c.Now i) pod.StartTime > t.MaxLife
      · simp only [evictLoop, candidates, hrun, hage, ne_eq, not_true_eq_false, if_false,
          and_self, if_true, runCandidates, ih]
      · simp only [evictLoop, candidates, hrun, hage, ne_eq, not_true_eq_false, if_false,
          and_false, ih]
    · simp only [evictLoop, candidates, hrun, ne_eq, not_false_eq_true, if_true,
        false_and, if_false, ih]

/-- Every member of the candidate sequence sits in the listing at its
position, is Running, and is over age at the clock reading of its position. -/
theorem mem_candidates (c : Cluster) (t : TargetInfo) (pods : List Pod) :
    ∀ (i j : Nat) (p : Pod), (j, p) ∈ candidates c t i pods →
      i ≤ j ∧ pods[j - i]? = some p ∧ p.Phase = "Running" ∧
        timeSince (c.Now j) p.StartTime > t.MaxLife := by
  induction pods with
  | nil => intro i j p h; simp [candidates] at h
  | cons pod rest ih =>
    intro i j p h
    have tail : (j, p) ∈ candidates c t (i + 1) rest →
        i ≤ j ∧ (pod :: rest)[j - i]? = some p ∧ p.Phase = "Running" ∧
          timeSince (c.Now j) p.StartTime > t.MaxLife := by
      intro h'
      obtain ⟨h1, h2, h3, h4⟩ := ih (i + 1) j p h'
      refine ⟨by omega, ?_, h3, h4⟩
      have e : j - i = (j - (i + 1)) + 1 := by omega
      rw [e, List.getElem?_cons_succ]
      exact h2
    unfold candidates at h
    split at h
    · rename_i hc
      rcases List.mem_cons.mp h with h | h
      · cases h
        exact ⟨le_refl _, by simp, hc.1, hc.2⟩
      · exact tail h
    · exact tail h

/-- An age above an `int64` threshold is a clock difference above it. -/
theorem timeSince_gt (now start maxLife : Int) (hm : minDuration ≤ maxLife)
    (h : timeSince now start > maxLife) : now - start > maxLife := by
  unfold timeSince at h
  unfold minDuration at hm
  unfold minDuration maxDuration at h
  split_ifs at h <;> omega

/-- For a threshold inside the `int64` range and below its maximum, the age
test of the program is the test `now - start > maxLife` on the clock
difference. -/
theorem timeSince_gt_iff (now start maxLife : Int) (hm : minDuration ≤ maxLife)
    (hM : maxLife < maxDuration) : timeSince now start > maxLife ↔ now - start > maxLife := by
  unfold timeSince
  unfold minDuration at hm
  unfold maxDuration at hM
  unfold minDuration maxDuration
  constructor <;> intro h <;> split_ifs at * <;> omega

/-- The events of an attempt name the pod attempted. -/
theorem mem_attempt (c : Cluster) (dryrun : Bool) (i : Nat) (pod : Pod) (e : Event)
    (h : e ∈ (attempt c dryrun i pod).1) :
    (∀ q, e = .evict q → q = pod ∧ dryrun = false) ∧
    (∀ name ns, e = .log (.deleted name ns) → name = pod.Name ∧ ns = pod.Namespace) := by
  unfold attempt at h
  cases dryrun with
  | true =>
    simp at h
    rcases h with h | h <;> subst h <;> simp
  | false =>
    cases hev : c.Evict i pod with
    | none =>
      simp [hev] at h
      rcases h with h | h <;> subst h <;> simp
    | some err =>
      simp [hev] at h
      rcases h with h | h <;> subst h <;> simp

/-- Every event of the walk over a candidate sequence comes from the attempt
on one of its members. -/
theorem mem_runCandidates (c : Cluster) (t : TargetInfo) (dryrun : Bool)
    (cands : List (Nat × Pod)) : ∀ (killCount : Int) (e : Event),
    e ∈ (runCandidates c t dryrun cands killCount).1 →
      ∃ ip ∈ cands, e ∈ (attempt c dryrun ip.1 ip.2).1 := by
  induction cands with
  | nil => intro k e h; simp [runCandidates] at h
  | cons ip rest ih =>
    intro k e h
    obtain ⟨i, pod⟩ := ip
    unfold runCandidates at h
    split at h
    · rename_i evs hat
      exact ⟨(i, pod), List.mem_cons_self _ _, by rw [hat]; exact h⟩
    · rename_i evs hat
      split at h
      · exact ⟨(i, pod), List.mem_cons_self _ _, by rw [hat]; exact h⟩
      · rcases List.mem_append.mp h with h | h
        · exact ⟨(i, pod), List.mem_cons_self _ _, by rw [hat]; exact h⟩
        · obtain ⟨ip, hip, he⟩ := ih _ e h
          exact ⟨ip, List.mem_cons_of_mem _ hip, he⟩

/-! ## Successful and failed attempts -/

theorem attempt_dryrun (c : Cluster) (i : Nat) (pod : Pod) :
    attempt c true i pod = (evictedEvents true pod, true) := by
  simp [attempt, evictedEvents]

theorem attempt_ok (c : Cluster) (i : Nat) (pod : Pod) (h : c.Evict i pod = none) :
    attempt c false i pod = (evictedEvents false pod, true) := by
  simp [attempt, evictedEvents, h]

theorem attempt_fail (c : Cluster) (i : Nat) (pod : Pod) (err : String)
    (h : c.Evict i pod = some err) :
    attempt c false i pod = ([.evict pod, .log (.cantDelete pod.Name err)], false) := by
  simp [attempt, h]

/-- When every attempt on a candidate succeeds, the walk evicts the
candidates in order until the batch cap is reached. -/
theorem runCandidates_ok (c : Cluster) (t : TargetInfo) (dryrun : Bool)
    (cands : List (Nat × Pod)) :
    (∀ ip ∈ cands, attempt c dryrun ip.1 ip.2 = (evictedEvents dryrun ip.2, true)) →
    ∀ (killCount : Int), (t.BatchMaxKill ≤ 0 ∨ killCount < t.BatchMaxKill) →
      runCandidates c t dryrun cands killCount =
        (evictedTrace dryrun
          ((if t.BatchMaxKill > 0 then cands.take (t.BatchMaxKill - killCount).toNat
            else cands).map Prod.snd),
         killCount + ((if t.BatchMaxKill > 0 then cands.take (t.BatchMaxKill - killCount).toNat
            else cands).length : Nat)) := by
  induction cands with
  | nil => intro _ k _; simp [runCandidates, evictedTrace]
  | cons ip rest ih =>
    intro hok k hk
    obtain ⟨i, pod⟩ := ip
    have hat := hok (i, pod) (List.mem_cons_self _ _)
    have hrest := ih (fun ip h => hok ip (List.mem_cons_of_mem _ h))
    simp only at hat
    unfold runCandidates
    rw [hat]
    simp only
    by_cases hcap : t.BatchMaxKill > 0 ∧ k + 1 ≥ t.BatchMaxKill
    · have h1 : (t.BatchMaxKill - k).toNat = 1 := by omega
      simp [hcap, h1, evictedTrace]
    · rw [if_neg hcap]
      by_cases hpos : t.BatchMaxKill > 0
      · have hlt : k + 1 < t.BatchMaxKill := by
          by_contra hne
          exact hcap ⟨hpos, by omega⟩
        have h1 : (t.BatchMaxKill - k).toNat = (t.BatchMaxKill - (k + 1)).toNat + 1 := by omega
        rw [hrest (k + 1) (Or.inr hlt)]
        simp only [hpos, if_true, h1, List.take_succ_cons, List.map_cons, evictedTrace,
          List.length_cons]
        refine Prod.ext rfl ?_
        simp only
        push_cast
        ring
      · rw [hrest (k + 1) (Or.inl (by omega))]
        simp only [hpos, if_false, List.map_cons, evictedTrace, List.length_cons]
        refine Prod.ext rfl ?_
        simp only
        push_cast
        ring

/-- When the attempts on the candidates before position `pre.length` of the
candidate sequence succeed and the next one fails before the batch cap is
reached, the walk stops right after the failed call. -/
theorem runCandidates_fail (c : Cluster) (t : TargetInfo) (pre : List (Nat × Pod))
    (i : Nat) (pod : Pod) (err : String) (post : List (Nat × Pod))
    (hfail : c.Evict i pod = some err) :
    (∀ ip ∈ pre, c.Evict ip.1 ip.2 = none) →
    ∀ (killCount : Int), (t.BatchMaxKill ≤ 0 ∨ killCount + pre.length < t.BatchMaxKill) →
      runCandidates c t false (pre ++ (i, pod) :: post) killCount =
        (evictedTrace false (pre.map Prod.snd) ++
          [.evict pod, .log (.cantDelete pod.Name err)], killCount + pre.length) := by
  induction pre with
  | nil =>
    intro _ k _
    simp [runCandidates, attempt_fail c i pod err hfail, evictedTrace]
  | cons ip rest ih =>
    intro hok k hk
    obtain ⟨i', pod'⟩ := ip
    have hat := attempt_ok c i' pod' (hok (i', pod') (List.mem_cons_self _ _))
    have hrest := ih (fun ip h => hok ip (List.mem_cons_of_mem _ h))
    simp only [List.cons_append]
    unfold runCandidates
    rw [hat]
    simp only
    simp only [List.length_cons, Nat.cast_add, Nat.cast_one] at hk
    have hcap : ¬ (t.BatchMaxKill > 0 ∧ k + 1 ≥ t.BatchMaxKill) := by
      rintro ⟨h1, h2⟩
      rcases hk with hk | hk <;> omega
    rw [if_neg hcap, hrest (k + 1) (by rcases hk with hk | hk <;> [left; right] <;> omega)]
    simp only [List.map_cons, evictedTrace, List.length_cons, List.append_assoc]
    refine Prod.ext rfl ?_
    simp only
    push_cast
    ring

/-- An attempt makes no lookup, no listing call, no sleep and no kill report. -/
theorem attempt_quiet (c : Cluster) (dryrun : Bool) (i : Nat) (pod : Pod) :
    selectorLookups (attempt c dryrun i pod).1 = [] ∧ listCalls (attempt c dryrun i pod).1 = [] ∧
    sleeps (attempt c dryrun i pod).1 = [] ∧ reportedKills (attempt c dryrun i pod).1 = [] := by
  unfold attempt
  cases dryrun with
  | true => simp [selectorLookups, listCalls, sleeps, reportedKills]
  | false =>
    cases c.Evict i pod <;> simp [selectorLookups, listCalls, sleeps, reportedKills]

/-- The walk over a candidate sequence makes no lookup, no listing call, no
sleep and no kill report. -/
theorem runCandidates_quiet (c : Cluster) (t : TargetInfo) (dryrun : Bool)
    (cands : List (Nat × Pod)) : ∀ (killCount : Int),
    selectorLookups (runCandidates c t dryrun cands killCount).1 = [] ∧
    listCalls (runCandidates c t dryrun cands killCount).1 = [] ∧
    sleeps (runCandidates c t dryrun cands killCount).1 = [] ∧
    reportedKills (runCandidates c t dryrun cands killCount).1 = [] := by
  induction cands with
  | nil => intro k; simp [runCandidates, selectorLookups, listCalls, sleeps, reportedKills]
  | cons ip rest ih =>
    intro k
    obtain ⟨i, pod⟩ := ip
    have hq := attempt_quiet c dryrun i pod
    unfold runCandidates
    split
    · rename_i evs hat
      rw [hat] at hq
      exact hq
    · rename_i evs hat
      rw [hat] at hq
      split
      · exact hq
      · obtain ⟨h1, h2, h3, h4⟩ := hq
        obtain ⟨g1, g2, g3, g4⟩ := ih (k + 1)
        simp [selectorLookups_append, listCalls_append, sleeps_append, reportedKills_append,
          h1, h2, h3, h4, g1, g2, g3, g4]

/-- The eviction loop makes no lookup, no listing call, no sleep and no kill
report. -/
theorem evictLoop_quiet (c : Cluster) (t : TargetInfo) (dryrun : Bool) (pods : List Pod)
    (i : Nat) (killCount : Int) :
    selectorLookups (evictLoop c t dryrun i pods killCount).1 = [] ∧
    listCalls (evictLoop c t dryrun i pods killCount).1 = [] ∧
    sleeps (evictLoop c t dryrun i pods killCount).1 = [] ∧
    reportedKills (evictLoop c t dryrun i pods killCount).1 = [] := by
  rw [evictLoop_eq_runCandidates]
  exact runCandidates_quiet c t dryrun _ killCount

/-! ## One iteration -/

/-- The call of a lookup is one of the three controller `Get` calls, for the
target's namespace and name. -/
theorem lookupSelector_call (lib : Lib) (c : Cluster) (t : TargetInfo) (call : Event)
    (x : Option LabelSelector) (h : lookupSelector lib c t = some (call, x)) :
    call = .getDaemonSet t.NameSpace t.Name ∨ call = .getDeployment t.NameSpace t.Name ∨
      call = .getStatefulSet t.NameSpace t.Name := by
  unfold lookupSelector at h
  split_ifs at h <;> simp at h <;> simp [← h.1]

/-- The observers on a lookup call. -/
theorem lookupSelector_call_obs (lib : Lib) (c : Cluster) (t : TargetInfo) (call : Event)
    (x : Option LabelSelector) (h : lookupSelector lib c t = some (call, x)) (es : List Event) :
    selectorLookups (call :: es) = call :: selectorLookups es ∧
    listCalls (call :: es) = listCalls es ∧ evictCalls (call :: es) = evictCalls es ∧
    sleeps (call :: es) = sleeps es ∧ reportedKills (call :: es) = reportedKills es ∧
    deletedLogs (call :: es) = deletedLogs es := by
  rcases lookupSelector_call lib c t call x h with h | h | h <;> subst h <;>
    simp [selectorLookups, listCalls, evictCalls, sleeps, reportedKills, deletedLogs]

/-- Which lookup call is made depends on the target only, not on the cluster. -/
theorem lookupSelector_other (lib : Lib) (c c' : Cluster) (t : TargetInfo) (call : Event)
    (x : Option LabelSelector) (h : lookupSelector lib c t = some (call, x)) :
    ∃ y, lookupSelector lib c' t = some (call, y) := by
  unfold lookupSelector at h ⊢
  split_ifs at h ⊢ <;> simp at h <;> simp [← h.1]

/-- An iteration whose selector resolves to `s`: lookup, listing with `s`, the
pass, and then the batch-mode return or the sleep. -/
theorem iteration_resolved (lib : Lib) (c : Cluster) (t : TargetInfo) (dryrun batchMode : Bool)
    (call : Event) (sel : LabelSelector) (s : String)
    (hsel : lookupSelector lib c t = some (call, some sel))
    (hconv : lib.LabelSelectorAsSelector sel = .ok s) :
    iteration lib c t dryrun batchMode =
      ([call, .listPods t.NameSpace s] ++ passEvents c t dryrun s ++ [passEnd t batchMode],
       batchMode) := by
  unfold iteration
  rw [hsel]
  simp only
  rw [hconv]
  cases batchMode <;> simp [passEvents, passEnd]

/-- An iteration that makes a lookup starts with it. -/
theorem iteration_head (lib : Lib) (c : Cluster) (t : TargetInfo) (dryrun batchMode : Bool)
    (call : Event) (x : Option LabelSelector) (h : lookupSelector lib c t = some (call, x)) :
    ∃ rest, (iteration lib c t dryrun batchMode).1 = call :: rest := by
  cases x with
  | none =>
    unfold iteration
    rw [h]
    exact ⟨_, rfl⟩
  | some sel =>
    cases hconv : lib.LabelSelectorAsSelector sel with
    | error err =>
      unfold iteration
      rw [h]
      simp only
      rw [hconv]
      exact ⟨_, rfl⟩
    | ok s =>
      rw [iteration_resolved lib c t dryrun batchMode call sel s h hconv]
      exact ⟨_, rfl⟩

/-- The observers on the events of a pass. -/
theorem passEvents_obs (c : Cluster) (t : TargetInfo) (dryrun : Bool) (s : String) :
    selectorLookups (passEvents c t dryrun s) = [] ∧ listCalls (passEvents c t dryrun s) = [] ∧
    sleeps (passEvents c t dryrun s) = [] ∧
    reportedKills (passEvents c t dryrun s) =
      [(evictLoop c t dryrun 0 (podItems c t.NameSpace s) 0).2] ∧
    evictCalls (passEvents c t dryrun s) =
      evictCalls (evictLoop c t dryrun 0 (podItems c t.NameSpace s) 0).1 := by
  obtain ⟨h1, h2, h3, h4⟩ := evictLoop_quiet c t dryrun (podItems c t.NameSpace s) 0 0
  simp [passEvents, selectorLookups_append, listCalls_append, sleeps_append,
    reportedKills_append, evictCalls_append, h1, h2, h3, h4, selectorLookups, listCalls,
    sleeps, reportedKills, evictCalls]

/-- The observers on the last event of a pass. -/
theorem passEnd_obs (t : TargetInfo) (batchMode : Bool) (es : List Event) :
    selectorLookups (passEnd t batchMode :: es) = selectorLookups es ∧
    listCalls (passEnd t batchMode :: es) = listCalls es ∧
    evictCalls (passEnd t batchMode :: es) = evictCalls es ∧
    reportedKills (passEnd t batchMode :: es) = reportedKills es ∧
    deletedLogs (passEnd t batchMode :: es) = deletedLogs es ∧
    sleeps (passEnd t batchMode :: es) = (if batchMode then [] else [t.Interval]) ++ sleeps es := by
  cases batchMode <;>
    simp [passEnd, selectorLookups, listCalls, evictCalls, reportedKills, deletedLogs, sleeps]

/-! ## The loop -/

theorem loop_return (lib : Lib) (world : Nat → Cluster) (t : TargetInfo) (dryrun batchMode : Bool)
    (fuel i : Nat) (h : (iteration lib (world i) t dryrun batchMode).2 = true) :
    loop lib world t dryrun batchMode (fuel + 1) i =
      ((iteration lib (world i) t dryrun batchMode).1, true) := by
  unfold loop
  split
  · rename_i evs hit; rw [hit]
  · rename_i evs hit; rw [hit] at h; simp at h

theorem loop_continue (lib : Lib) (world : Nat → Cluster) (t : TargetInfo)
    (dryrun batchMode : Bool) (fuel i : Nat)
    (h : (iteration lib (world i) t dryrun batchMode).2 = false) :
    loop lib world t dryrun batchMode (fuel + 1) i =
      ((iteration lib (world i) t dryrun batchMode).1 ++
        (loop lib world t dryrun batchMode fuel (i + 1)).1,
       (loop lib world t dryrun batchMode fuel (i + 1)).2) := by
  conv => lhs; unfold loop
  split
  · rename_i evs hit; rw [hit] at h; simp at h
  · rename_i evs hit; rw [hit]

/-- A loop that has not returned after `n` iterations goes on from there. -/
theorem loop_add (lib : Lib) (world : Nat → Cluster) (t : TargetInfo) (dryrun batchMode : Bool)
    (fuel : Nat) : ∀ (n i : Nat), (loop lib world t dryrun batchMode n i).2 = false →
    loop lib world t dryrun batchMode (n + fuel) i =
      ((loop lib world t dryrun batchMode n i).1 ++
        (loop lib world t dryrun batchMode fuel (i + n)).1,
       (loop lib world t dryrun batchMode fuel (i + n)).2) := by
  intro n
  induction n with
  | zero => intro i _; simp [loop]
  | succ n ih =>
    intro i h
    cases hit : (iteration lib (world i) t dryrun batchMode).2 with
    | true =>
      rw [loop_return lib world t dryrun batchMode n i hit] at h
      simp at h
    | false =>
      rw [loop_continue lib world t dryrun batchMode n i hit] at h
      have e : n + 1 + fuel = (n + fuel) + 1 := by omega
      rw [e, loop_continue lib world t dryrun batchMode (n + fuel) i hit,
        loop_continue lib world t dryrun batchMode n i hit, ih (i + 1) h]
      have e2 : i + 1 + n = i + (n + 1) := by omega
      simp [e2]

/-- The trace of `performCheckAndKill` when its first `n` iterations have not
returned: the start-up line, those iterations, the loop from iteration `n` on,
and the deferred events if the loop returns. -/
theorem performCheckAndKill_from (lib : Lib) (world : Nat → Cluster) (t : TargetInfo)
    (dryrun batchMode : Bool) (n fuel : Nat)
    (h : (loop lib world t dryrun batchMode n 0).2 = false) :
    performCheckAndKill lib world (n + fuel) t dryrun batchMode =
      (startedEvent t :: (loop lib world t dryrun batchMode n 0).1 ++
        (loop lib world t dryrun batchMode fuel n).1 ++
        (if (loop lib world t dryrun batchMode fuel n).2 then deferredEvents t else []),
       (loop lib world t dryrun batchMode fuel n).2) := by
  unfold performCheckAndKill
  rw [loop_add lib world t dryrun batchMode fuel n 0 h]
  simp only [Nat.zero_add]
  cases (loop lib world t dryrun batchMode fuel n).2 <;> simp

/-! ## Claims -/

/-- An eviction call or a "Deleted Pod" line of an iteration comes from the
eviction loop over the listing of that iteration. -/
theorem mem_iteration (lib : Lib) (c : Cluster) (t : TargetInfo) (dryrun batchMode : Bool)
    (e : Event) (h : e ∈ (iteration lib c t dryrun batchMode).1)
    (he : (∃ p, e = .evict p) ∨ (∃ name ns, e = .log (.deleted name ns))) :
    ∃ call sel s pods, lookupSelector lib c t = some (call, some sel) ∧
      lib.LabelSelectorAsSelector sel = .ok s ∧ c.ListPods t.NameSpace s = .ok pods ∧
      e ∈ (evictLoop c t dryrun 0 pods 0).1 := by
  cases hsel : lookupSelector lib c t with
  | none =>
    unfold iteration at h
    rw [hsel] at h
    simp at h
    subst h
    rcases he with ⟨p, he⟩ | ⟨n, m, he⟩ <;> cases he
  | some cx =>
    obtain ⟨call, x⟩ := cx
    have hcall := lookupSelector_call lib c t call x hsel
    have notcall : e ≠ call := by
      rintro rfl
      rcases he with ⟨p, he⟩ | ⟨n, m, he⟩ <;> subst he <;> simp at hcall
    cases x with
    | none =>
      unfold iteration at h
      rw [hsel] at h
      simp at h
      rcases h with h | h
      · exact absurd h notcall
      · subst h
        rcases he with ⟨p, he⟩ | ⟨n, m, he⟩ <;> cases he
    | some sel =>
      cases hconv : lib.LabelSelectorAsSelector sel with
      | error err =>
        unfold iteration at h
        rw [hsel] at h
        simp only at h
        rw [hconv] at h
        simp at h
        rcases h with h | h
        · exact absurd h notcall
        · subst h
          rcases he with ⟨p, he⟩ | ⟨n, m, he⟩ <;> cases he
      | ok s =>
        rw [iteration_resolved lib c t dryrun batchMode call sel s hsel hconv] at h
        simp only [passEvents, passEnd, List.mem_append, List.mem_cons, List.mem_singleton,
          List.not_mem_nil, or_false] at h
        rcases h with ((h | h) | h | h) | h
        · exact absurd h notcall
        · subst h
          rcases he with ⟨p, he⟩ | ⟨n, m, he⟩ <;> cases he
        · cases hlist : c.ListPods t.NameSpace s with
          | error err =>
            simp [podItems, hlist, evictLoop] at h
          | ok pods =>
            simp only [podItems, hlist] at h
            exact ⟨call, sel, s, pods, rfl, hconv, hlist, h⟩
        · subst h
          rcases he with ⟨p, he⟩ | ⟨n, m, he⟩ <;> cases he
        · subst h
          cases batchMode <;> rcases he with ⟨p, he⟩ | ⟨n, m, he⟩ <;> simp at he

/-- An event of the eviction loop comes from the attempt on a pod that sits in
the listing, is Running and is over age at the clock reading of its position. -/
theorem mem_evictLoop (c : Cluster) (t : TargetInfo) (dryrun : Bool) (pods : List Pod)
    (e : Event) (h : e ∈ (evictLoop c t dryrun 0 pods 0).1) :
    ∃ i p, e ∈ (attempt c dryrun i p).1 ∧ pods[i]? = some p ∧ p.Phase = "Running" ∧
      timeSince (c.Now i) p.StartTime > t.MaxLife := by
  rw [evictLoop_eq_runCandidates] at h
  obtain ⟨⟨i, p⟩, hip, he⟩ := mem_runCandidates c t dryrun _ 0 e h
  obtain ⟨_, h2, h3, h4⟩ := mem_candidates c t pods 0 i p hip
  exact ⟨i, p, he, by simpa using h2, h3, h4⟩

/-- C1: in one iteration of `performCheckAndKill`, whatever the listing, the
clock readings, `MaxLife`, the eviction outcomes and the two mode flags, an
eviction call for a pod (made only when not in dry-run mode) and a "Deleted
Pod" line (written for a real and for a simulated eviction) occur only for a
pod of the listing returned to this iteration that is in phase Running and
whose age at the clock reading taken for it is strictly greater than
`MaxLife`; for a `MaxLife` in the `int64` range that age test is
`now - startTime > MaxLife`.  So a pod that is not Running, and a Running pod
of age at most `MaxLife`, is never contacted.  Scenario: with `MaxLife` 1h and
`BatchMaxKill` 1, Running pods aged 2h and 30m give, in either listing order
and whatever the eviction answers, exactly one eviction call, for the 2h pod. -/
theorem evictions_only_running_over_age :
    (∀ (lib : Lib) (c : Cluster) (t : TargetInfo) (dryrun batchMode : Bool) (e : Event),
      e ∈ (iteration lib c t dryrun batchMode).1 →
      (∀ p, e = .evict p → dryrun = false ∧
        ∃ call sel s pods i, lookupSelector lib c t = some (call, some sel) ∧
          lib.LabelSelectorAsSelector sel = .ok s ∧ c.ListPods t.NameSpace s = .ok pods ∧
          pods[i]? = some p ∧ p.Phase = "Running" ∧
          timeSince (c.Now i) p.StartTime > t.MaxLife ∧
          (minDuration ≤ t.MaxLife → c.Now i - p.StartTime > t.MaxLife)) ∧
      (∀ name ns, e = .log (.deleted name ns) →
        ∃ call sel s pods i p, lookupSelector lib c t = some (call, some sel) ∧
          lib.LabelSelectorAsSelector sel = .ok s ∧ c.ListPods t.NameSpace s = .ok pods ∧
          pods[i]? = some p ∧ p.Name = name ∧ p.Namespace = ns ∧ p.Phase = "Running" ∧
          timeSince (c.Now i) p.StartTime > t.MaxLife ∧
          (minDuration ≤ t.MaxLife → c.Now i - p.StartTime > t.MaxLife))) ∧
    (∀ evict : Nat → Pod → Option String,
      evictCalls (iteration demoLib (demoCluster "api" [podOld, podYoung] evict (10 * Hour))
        (apiTarget 1) false false).1 = [podOld]) ∧
    (∀ evict : Nat → Pod → Option String,
      evictCalls (iteration demoLib (demoCluster "api" [podYoung, podOld] evict (10 * Hour))
        (apiTarget 1) false false).1 = [podOld]) := by
  refine ⟨?_, ?_, ?_⟩
  · intro lib c t dryrun batchMode e h
    constructor
    · intro p he
      obtain ⟨call, sel, s, pods, hsel, hconv, hlist, hmem⟩ :=
        mem_iteration lib c t dryrun batchMode e h (Or.inl ⟨p, he⟩)
      obtain ⟨i, q, hat, hget, hrun, hage⟩ := mem_evictLoop c t dryrun pods e hmem
      obtain ⟨hq, hdry⟩ := (mem_attempt c dryrun i q e hat).1 p he
      subst hq
      exact ⟨hdry, call, sel, s, pods, i, hsel, hconv, hlist, hget, hrun, hage,
        fun hm => timeSince_gt _ _ _ hm hage⟩
    · intro name ns he
      obtain ⟨call, sel, s, pods, hsel, hconv, hlist, hmem⟩ :=
        mem_iteration lib c t dryrun batchMode e h (Or.inr ⟨name, ns, he⟩)
      obtain ⟨i, q, hat, hget, hrun, hage⟩ := mem_evictLoop c t dryrun pods e hmem
      obtain ⟨hn, hns⟩ := (mem_attempt c dryrun i q e hat).2 name ns he
      exact ⟨call, sel, s, pods, i, q, hsel, hconv, hlist, hget, hn.symm, hns.symm, hrun, hage,
        fun hm => timeSince_gt _ _ _ hm hage⟩
  · intro evict
    have hsel : lookupSelector demoLib (demoCluster "api" [podOld, podYoung] evict (10 * Hour))
        (apiTarget 1) = some (.getDeployment "ns1" "api",
          some { MatchLabels := [("app", "api")] }) := rfl
    rw [iteration_resolved _ _ _ _ _ _ _ "app=api" hsel rfl]
    cases hev : evict 0 podOld <;> simp [podOld, runningPod, Hour, Second] at hev <;>
      simp [passEvents, passEnd, podItems, demoCluster, evictLoop, attempt, hev, evictCalls,
        podOld, podYoung, runningPod, apiTarget, timeSince, Hour, Second, minDuration,
        maxDuration]
  · intro evict
    have hsel : lookupSelector demoLib (demoCluster "api" [podYoung, podOld] evict (10 * Hour))
        (apiTarget 1) = some (.getDeployment "ns1" "api",
          some { MatchLabels := [("app", "api")] }) := rfl
    rw [iteration_resolved _ _ _ _ _ _ _ "app=api" hsel rfl]
    cases hev : evict 1 podOld <;> simp [podOld, runningPod, Hour, Second] at hev <;>
      simp [passEvents, passEnd, podItems, demoCluster, evictLoop, attempt, hev, evictCalls,
        podOld, podYoung, runningPod, apiTarget, timeSince, Hour, Second, minDuration,
        maxDuration]

/-- C1 at a concrete input: the eviction call of the scenario's iteration is
for a pod that the theorem shows to be Running and over age. -/
theorem evictions_only_running_over_age_witness :
    podOld.Phase = "Running" ∧
      timeSince 36000000000000 podOld.StartTime > (apiTarget 1).MaxLife := by
  have hmem : Event.evict podOld ∈ (iteration demoLib
      (demoCluster "api" [podYoung, podOld] (fun _ _ => none) 36000000000000)
      (apiTarget 1) false false).1 := by decide
  obtain ⟨_, _, _, _, _, _, _, _, _, _, hrun, hage, _⟩ :=
    (evictions_only_running_over_age.1 demoLib
      (demoCluster "api" [podYoung, podOld] (fun _ _ => none) 36000000000000)
      (apiTarget 1) false false (.evict podOld) hmem).1 podOld rfl
  exact ⟨hrun, hage⟩

/-! ### Batch cap and dry run -/

/-- The batch cap for a positive bound: the first `min k n` elements. -/
theorem capped_pos {α : Type} (k : Int) (l : List α) (hk : 0 < k) :
    capped k l = l.take (min k.toNat l.length) ∧
      ((capped k l).length : Int) = min k (l.length : Int) := by
  have h1 : capped k l = l.take k.toNat := by simp [capped, hk]
  rw [h1]
  constructor
  · rcases le_total k.toNat l.length with h | h
    · rw [min_eq_left h]
    · rw [min_eq_right h, List.take_length, List.take_of_length_le h]
  · rw [List.length_take]
    omega

/-- The batch cap for a bound of zero: everything. -/
theorem capped_zero {α : Type} (l : List α) : capped 0 l = l := by
  simp [capped]

/-- The capped list is a prefix: what is cut off is the rest of the list. -/
theorem capped_append_drop {α : Type} (k : Int) (l : List α) :
    capped k l ++ l.drop (capped k l).length = l := by
  unfold capped
  split
  · rw [List.length_take]
    rcases le_total k.toNat l.length with h | h
    · rw [min_eq_left h, List.take_append_drop]
    · rw [min_eq_right h, List.take_of_length_le h, List.drop_length, List.append_nil]
  · simp

/-- When no attempt fails (dry run, or every eviction call succeeds), the
eviction loop evicts the capped eligible pods and counts them. -/
theorem evictLoop_all_ok (c : Cluster) (t : TargetInfo) (dryrun : Bool) (pods : List Pod)
    (hok : dryrun = true ∨ ∀ i p, c.Evict i p = none) :
    evictLoop c t dryrun 0 pods 0 =
      (evictedTrace dryrun (capped t.BatchMaxKill (eligible c t pods)),
       ((capped t.BatchMaxKill (eligible c t pods)).length : Int)) := by
  have hat : ∀ ip ∈ candidates c t 0 pods,
      attempt c dryrun ip.1 ip.2 = (evictedEvents dryrun ip.2, true) := by
    intro ip _
    rcases hok with h | h
    · subst h; exact attempt_dryrun c ip.1 ip.2
    · cases dryrun with
      | true => exact attempt_dryrun c ip.1 ip.2
      | false => exact attempt_ok c ip.1 ip.2 (h ip.1 ip.2)
  rw [evictLoop_eq_runCandidates,
    runCandidates_ok c t dryrun _ hat 0 (by rcases le_or_lt t.BatchMaxKill 0 with h | h <;> simp [h])]
  unfold capped eligible
  by_cases hpos : t.BatchMaxKill > 0
  · simp [hpos, List.map_take]
  · simp [hpos]

/-- A trace without eviction events has no eviction calls. -/
theorem evictCalls_eq_nil (l : List Event) (h : ∀ p, Event.evict p ∉ l) : evictCalls l = [] := by
  induction l with
  | nil => rfl
  | cons e es ih =>
    have hes : ∀ p, Event.evict p ∉ es := fun p hp => h p (List.mem_cons_of_mem _ hp)
    cases e with
    | evict q => exact absurd (List.mem_cons_self _ _) (h q)
    | _ => simpa [evictCalls] using ih hes

/-- A dry-run iteration makes no eviction call. -/
theorem iteration_dryrun_no_evict (lib : Lib) (c : Cluster) (t : TargetInfo) (batchMode : Bool) :
    evictCalls (iteration lib c t true batchMode).1 = [] := by
  apply evictCalls_eq_nil
  intro p hp
  obtain ⟨_, _, _, pods, _, _, _, hmem⟩ :=
    mem_iteration lib c t true batchMode (.evict p) hp (Or.inl ⟨p, rfl⟩)
  obtain ⟨i, q, hat, _⟩ := mem_evictLoop c t true pods (.evict p) hmem
  have := ((mem_attempt c true i q (.evict p) hat).1 p rfl).2
  simp at this

/-- A dry-run loop makes no eviction call. -/
theorem loop_dryrun_no_evict (lib : Lib) (world : Nat → Cluster) (t : TargetInfo)
    (batchMode : Bool) : ∀ (fuel i : Nat),
    evictCalls (loop lib world t true batchMode fuel i).1 = [] := by
  intro fuel
  induction fuel with
  | zero => intro i; rfl
  | succ n ih =>
    intro i
    cases hit : (iteration lib (world i) t true batchMode).2 with
    | true =>
      rw [loop_return lib world t true batchMode n i hit]
      exact iteration_dryrun_no_evict lib (world i) t batchMode
    | false =>
      rw [loop_continue lib world t true batchMode n i hit]
      simp [evictCalls_append, iteration_dryrun_no_evict, ih]

/-- An iteration that reaches a successful listing and in which no attempt
fails: its whole trace. -/
theorem iteration_all_ok (lib : Lib) (c : Cluster) (t : TargetInfo) (dryrun batchMode : Bool)
    (call : Event) (sel : LabelSelector) (s : String) (pods : List Pod)
    (hsel : lookupSelector lib c t = some (call, some sel))
    (hconv : lib.LabelSelectorAsSelector sel = .ok s)
    (hlist : c.ListPods t.NameSpace s = .ok pods)
    (hok : dryrun = true ∨ ∀ i p, c.Evict i p = none) :
    (iteration lib c t dryrun batchMode).1 =
      [call, .listPods t.NameSpace s] ++
        evictedTrace dryrun (capped t.BatchMaxKill (eligible c t pods)) ++
        [.log (.killed t.NameSpace t.Kind t.Name
            ((capped t.BatchMaxKill (eligible c t pods)).length : Int)),
          passEnd t batchMode] := by
  rw [iteration_resolved lib c t dryrun batchMode call sel s hsel hconv]
  simp only [passEvents, podItems, hlist, evictLoop_all_ok c t dryrun pods hok]
  simp

/-- C2: in one non-dry-run iteration of `performCheckAndKill` that reaches a
listing `pods` and in which every eviction call succeeds, with `k` the target's
`BatchMaxKill` and the eligible pods those of the listing that are Running and
older than `MaxLife`, in listing order: the trace is the lookup, the listing
call, one successful eviction for each pod of the capped eligible sequence and
the report of their number; the eviction calls are exactly the first
`min k n` eligible pods when `k > 0` and all `n` of them when `k = 0`; the
reported kill count is the number of eviction calls; the eligible pods after
those receive no call.  Scenario: `k = 2` and five eligible pods give exactly
two eviction calls and three pods without a call. -/
theorem batch_cap_evicts_first_eligible :
    (∀ (lib : Lib) (c : Cluster) (t : TargetInfo) (batchMode : Bool) (call : Event)
      (sel : LabelSelector) (s : String) (pods : List Pod),
      lookupSelector lib c t = some (call, some sel) →
      lib.LabelSelectorAsSelector sel = .ok s →
      c.ListPods t.NameSpace s = .ok pods →
      (∀ i p, c.Evict i p = none) →
      (iteration lib c t false batchMode).1 =
        [call, .listPods t.NameSpace s] ++
          evictedTrace false (capped t.BatchMaxKill (eligible c t pods)) ++
          [.log (.killed t.NameSpace t.Kind t.Name
              ((capped t.BatchMaxKill (eligible c t pods)).length : Int)),
            passEnd t batchMode] ∧
      evictCalls (iteration lib c t false batchMode).1
        = capped t.BatchMaxKill (eligible c t pods) ∧
      (0 < t.BatchMaxKill → evictCalls (iteration lib c t false batchMode).1
        = (eligible c t pods).take (min t.BatchMaxKill.toNat (eligible c t pods).length)) ∧
      (t.BatchMaxKill = 0 → evictCalls (iteration lib c t false batchMode).1
        = eligible c t pods) ∧
      reportedKills (iteration lib c t false batchMode).1
        = [((evictCalls (iteration lib c t false batchMode).1).length : Int)] ∧
      evictCalls (iteration lib c t false batchMode).1 ++
          (eligible c t pods).drop (evictCalls (iteration lib c t false batchMode).1).length
        = eligible c t pods) ∧
    (eligible (demoCluster "api" fiveOld (fun _ _ => none) (10 * Hour)) (apiTarget 2) fiveOld
        = fiveOld ∧
      evictCalls (iteration demoLib (demoCluster "api" fiveOld (fun _ _ => none) (10 * Hour))
        (apiTarget 2) false false).1 = fiveOld.take 2 ∧
      (evictCalls (iteration demoLib (demoCluster "api" fiveOld (fun _ _ => none) (10 * Hour))
        (apiTarget 2) false false).1).length = 2 ∧
      (fiveOld.filter (fun p => !(evictCalls (iteration demoLib
        (demoCluster "api" fiveOld (fun _ _ => none) (10 * Hour))
        (apiTarget 2) false false).1).contains p)).length = 3) := by
  refine ⟨?_, by decide⟩
  intro lib c t batchMode call sel s pods hsel hconv hlist hok
  have htr := iteration_all_ok lib c t false batchMode call sel s pods hsel hconv hlist
    (Or.inr hok)
  have hcalls : evictCalls (iteration lib c t false batchMode).1
      = capped t.BatchMaxKill (eligible c t pods) := by
    rw [htr]
    obtain ⟨_, _, h3, _⟩ := lookupSelector_call_obs lib c t call _ hsel
      (.listPods t.NameSpace s :: (evictedTrace false (capped t.BatchMaxKill (eligible c t pods))
        ++ [.log (.killed t.NameSpace t.Kind t.Name
              ((capped t.BatchMaxKill (eligible c t pods)).length : Int)),
            passEnd t batchMode]))
    obtain ⟨_, _, h3', _⟩ := passEnd_obs t batchMode []
    simp only [List.cons_append, List.nil_append, List.append_assoc] at h3 ⊢
    rw [h3]
    simp [evictCalls, evictCalls_append, evictCalls_evictedTrace_real, h3']
  have hkills : reportedKills (iteration lib c t false batchMode).1
      = [((capped t.BatchMaxKill (eligible c t pods)).length : Int)] := by
    rw [iteration_resolved lib c t false batchMode call sel s hsel hconv]
    obtain ⟨_, _, _, _, h5, _⟩ := lookupSelector_call_obs lib c t call _ hsel
      (.listPods t.NameSpace s :: (passEvents c t false s ++ [passEnd t batchMode]))
    obtain ⟨_, _, _, h4', _⟩ := passEnd_obs t batchMode []
    obtain ⟨_, _, _, h4, _⟩ := passEvents_obs c t false s
    simp only [List.cons_append, List.nil_append, List.append_assoc] at h5 ⊢
    rw [h5]
    simp [reportedKills, reportedKills_append, h4, h4', podItems, hlist,
      evictLoop_all_ok c t false pods (Or.inr hok)]
  refine ⟨htr, hcalls, ?_, ?_, ?_, ?_⟩
  · intro hk
    rw [hcalls]
    exact (capped_pos _ _ hk).1
  · intro hk
    rw [hcalls, hk, capped_zero]
  · rw [hkills, hcalls]
  · rw [hcalls]
    exact capped_append_drop _ _

/-- C2 at a concrete input: two eviction calls out of five eligible pods. -/
theorem batch_cap_evicts_first_eligible_witness :
    evictCalls (iteration demoLib (demoCluster "api" fiveOld (fun _ _ => none) (10 * Hour))
      (apiTarget 2) false true).1
      = capped 2 (eligible (demoCluster "api" fiveOld (fun _ _ => none) (10 * Hour))
          (apiTarget 2) fiveOld) :=
  (batch_cap_evicts_first_eligible.1 demoLib
    (demoCluster "api" fiveOld (fun _ _ => none) (10 * Hour)) (apiTarget 2) true
    (.getDeployment "ns1" "api") { MatchLabels := [("app", "api")] } "app=api" fiveOld
    rfl rfl rfl (fun _ _ => rfl)).2.1

/-- The observers on the trace of an iteration that reached the listing, with
`m` the events of the eviction loop and `n` the reported count. -/
theorem frame_obs (lib : Lib) (c : Cluster) (t : TargetInfo) (batchMode : Bool) (call : Event)
    (x : Option LabelSelector) (s : String) (m : List Event) (n : Int)
    (hsel : lookupSelector lib c t = some (call, x)) :
    evictCalls ([call, .listPods t.NameSpace s] ++ m ++
      [.log (.killed t.NameSpace t.Kind t.Name n), passEnd t batchMode]) = evictCalls m ∧
    deletedLogs ([call, .listPods t.NameSpace s] ++ m ++
      [.log (.killed t.NameSpace t.Kind t.Name n), passEnd t batchMode]) = deletedLogs m ∧
    reportedKills ([call, .listPods t.NameSpace s] ++ m ++
      [.log (.killed t.NameSpace t.Kind t.Name n), passEnd t batchMode])
        = reportedKills m ++ [n] ∧
    selectorLookups ([call, .listPods t.NameSpace s] ++ m ++
      [.log (.killed t.NameSpace t.Kind t.Name n), passEnd t batchMode])
        = call :: selectorLookups m ∧
    listCalls ([call, .listPods t.NameSpace s] ++ m ++
      [.log (.killed t.NameSpace t.Kind t.Name n), passEnd t batchMode])
        = (t.NameSpace, s) :: listCalls m ∧
    sleeps ([call, .listPods t.NameSpace s] ++ m ++
      [.log (.killed t.NameSpace t.Kind t.Name n), passEnd t batchMode])
        = sleeps m ++ (if batchMode then [] else [t.Interval]) := by
  obtain ⟨h1, h2, h3, h4, h5, h6⟩ := lookupSelector_call_obs lib c t call x hsel
    (.listPods t.NameSpace s :: (m ++
      [.log (.killed t.NameSpace t.Kind t.Name n), passEnd t batchMode]))
  obtain ⟨g1, g2, g3, g4, g5, g6⟩ := passEnd_obs t batchMode []
  simp only [List.cons_append, List.nil_append, List.append_assoc] at *
  rw [h1, h2, h3, h4, h5, h6]
  simp [evictCalls, deletedLogs, reportedKills, selectorLookups, listCalls, sleeps,
    evictCalls_append, deletedLogs_append, reportedKills_append, selectorLookups_append,
    listCalls_append, sleeps_append, g1, g2, g3, g4, g5, g6]

/-- C3: with `dryrun = true` no eviction call is made, in one iteration and in
the whole run of `performCheckAndKill`, whatever the listing, `MaxLife` and
`BatchMaxKill`; and in an iteration that reaches a listing `pods` the "Deleted
Pod" lines (the simulated evictions) are those of the capped eligible pods and
the reported kill count is their number: `min BatchMaxKill n` when
`BatchMaxKill > 0` and `n` when `BatchMaxKill = 0`, with `n` the number of
eligible (Running, over-age) pods of the listing. -/
theorem dryrun_counts_simulated_evictions (lib : Lib) (c : Cluster) (t : TargetInfo)
    (batchMode : Bool) (call : Event) (sel : LabelSelector) (s : String) (pods : List Pod)
    (hsel : lookupSelector lib c t = some (call, some sel))
    (hconv : lib.LabelSelectorAsSelector sel = .ok s)
    (hlist : c.ListPods t.NameSpace s = .ok pods) :
    evictCalls (iteration lib c t true batchMode).1 = [] ∧
    (∀ (world : Nat → Cluster) (fuel : Nat),
      evictCalls (performCheckAndKill lib world fuel t true batchMode).1 = []) ∧
    deletedLogs (iteration lib c t true batchMode).1
      = (capped t.BatchMaxKill (eligible c t pods)).map (fun p => (p.Name, p.Namespace)) ∧
    reportedKills (iteration lib c t true batchMode).1
      = [((deletedLogs (iteration lib c t true batchMode).1).length : Int)] ∧
    (0 < t.BatchMaxKill → reportedKills (iteration lib c t true batchMode).1
      = [min t.BatchMaxKill ((eligible c t pods).length : Int)]) ∧
    (t.BatchMaxKill = 0 → reportedKills (iteration lib c t true batchMode).1
      = [((eligible c t pods).length : Int)]) := by
  have htr := iteration_all_ok lib c t true batchMode call sel s pods hsel hconv hlist
    (Or.inl rfl)
  obtain ⟨_, f2, f3, _⟩ := frame_obs lib c t batchMode call _ s
    (evictedTrace true (capped t.BatchMaxKill (eligible c t pods)))
    ((capped t.BatchMaxKill (eligible c t pods)).length : Int) hsel
  have hq : reportedKills (evictedTrace true (capped t.BatchMaxKill (eligible c t pods))) = [] := by
    have := evictLoop_quiet c t true pods 0 0
    rw [evictLoop_all_ok c t true pods (Or.inl rfl)] at this
    exact this.2.2.2
  have hdel : deletedLogs (iteration lib c t true batchMode).1
      = (capped t.BatchMaxKill (eligible c t pods)).map (fun p => (p.Name, p.Namespace)) := by
    rw [htr, f2, deletedLogs_evictedTrace]
  have hkills : reportedKills (iteration lib c t true batchMode).1
      = [((capped t.BatchMaxKill (eligible c t pods)).length : Int)] := by
    rw [htr, f3, hq]
    rfl
  refine ⟨iteration_dryrun_no_evict lib c t batchMode, ?_, hdel, ?_, ?_, ?_⟩
  · intro world fuel
    have hl := loop_dryrun_no_evict lib world t batchMode fuel 0
    simp only [performCheckAndKill]
    cases (loop lib world t true batchMode fuel 0).2 <;>
      simp [evictCalls, evictCalls_append, hl, startedEvent, deferredEvents]
  · rw [hkills, hdel, List.length_map]
  · intro hk
    rw [hkills, (capped_pos _ _ hk).2]
  · intro hk
    rw [hkills, hk, capped_zero]

/-- C3 at a concrete input: a dry run over five eligible pods with a cap of
two makes no eviction call and reports two kills. -/
theorem dryrun_counts_simulated_evictions_witness :
    evictCalls (iteration demoLib (demoCluster "api" fiveOld (fun _ _ => some "refused")
      (10 * Hour)) (apiTarget 2) true false).1 = [] ∧
    reportedKills (iteration demoLib (demoCluster "api" fiveOld (fun _ _ => some "refused")
      (10 * Hour)) (apiTarget 2) true false).1
      = [min 2 ((eligible (demoCluster "api" fiveOld (fun _ _ => some "refused") (10 * Hour))
          (apiTarget 2) fiveOld).length : Int)] :=
  have h := dryrun_counts_simulated_evictions demoLib
    (demoCluster "api" fiveOld (fun _ _ => some "refused") (10 * Hour)) (apiTarget 2) false
    (.getDeployment "ns1" "api") { MatchLabels := [("app", "api")] } "app=api" fiveOld
    rfl rfl rfl
  ⟨h.1, h.2.2.2.2.1 (by decide)⟩

/-! ### Failures and the next iteration -/

/-- A loop with fuel left starts with the events of its first iteration. -/
theorem loop_succ_head (lib : Lib) (world : Nat → Cluster) (t : TargetInfo)
    (dryrun batchMode : Bool) (fuel i : Nat) :
    ∃ rest, (loop lib world t dryrun batchMode (fuel + 1) i).1 =
      (iteration lib (world i) t dryrun batchMode).1 ++ rest := by
  cases hit : (iteration lib (world i) t dryrun batchMode).2 with
  | true =>
    rw [loop_return lib world t dryrun batchMode fuel i hit]
    exact ⟨[], by simp⟩
  | false =>
    rw [loop_continue lib world t dryrun batchMode fuel i hit]
    exact ⟨_, rfl⟩

/-- When the first `n` iterations have not returned and iteration `n` does not
return either, the run goes on with iteration `n + 1`. -/
theorem performCheckAndKill_next (lib : Lib) (world : Nat → Cluster) (t : TargetInfo)
    (dryrun batchMode : Bool) (n fuel : Nat)
    (hrun : (loop lib world t dryrun batchMode n 0).2 = false)
    (hit : (iteration lib (world n) t dryrun batchMode).2 = false) :
    ∃ rest, (performCheckAndKill lib world (n + (fuel + 2)) t dryrun batchMode).1 =
      startedEvent t :: (loop lib world t dryrun batchMode n 0).1 ++
        (iteration lib (world n) t dryrun batchMode).1 ++
        (iteration lib (world (n + 1)) t dryrun batchMode).1 ++ rest := by
  rw [performCheckAndKill_from lib world t dryrun batchMode n (fuel + 2) hrun,
    loop_continue lib world t dryrun batchMode (fuel + 1) n hit]
  obtain ⟨rest, hrest⟩ := loop_succ_head lib world t dryrun batchMode fuel (n + 1)
  simp only
  rw [hrest]
  exact ⟨rest ++ (if (loop lib world t dryrun batchMode (fuel + 1) (n + 1)).2 = true
    then deferredEvents t else []), by simp⟩

/-- The iteration in which the eviction call for candidate number
`pre.length` is the first to fail. -/
theorem iteration_fail (lib : Lib) (c : Cluster) (t : TargetInfo) (batchMode : Bool)
    (call : Event) (sel : LabelSelector) (s : String) (pods : List Pod)
    (pre : List (Nat × Pod)) (i : Nat) (pod : Pod) (err : String) (post : List (Nat × Pod))
    (hsel : lookupSelector lib c t = some (call, some sel))
    (hconv : lib.LabelSelectorAsSelector sel = .ok s)
    (hlist : c.ListPods t.NameSpace s = .ok pods)
    (hcands : candidates c t 0 pods = pre ++ (i, pod) :: post)
    (hpre : ∀ ip ∈ pre, c.Evict ip.1 ip.2 = none)
    (hfail : c.Evict i pod = some err)
    (hcap : t.BatchMaxKill ≤ 0 ∨ (pre.length : Int) < t.BatchMaxKill) :
    iteration lib c t false batchMode =
      ([call, .listPods t.NameSpace s] ++
        (evictedTrace false (pre.map Prod.snd) ++
          [.evict pod, .log (.cantDelete pod.Name err)]) ++
        [.log (.killed t.NameSpace t.Kind t.Name (pre.length : Int)), passEnd t batchMode],
       batchMode) := by
  rw [iteration_resolved lib c t false batchMode call sel s hsel hconv]
  simp only [passEvents, podItems, hlist, evictLoop_eq_runCandidates, hcands]
  rw [runCandidates_fail c t pre i pod err post hfail hpre 0 (by simpa using hcap)]
  simp

/-- C4: in a non-dry-run iteration of `performCheckAndKill` (iteration `n`,
reached because the first `n` iterations did not return) whose listing has the
candidate sequence `pre ++ (i, pod) :: post`, where the eviction calls for the
`j = pre.length` candidates of `pre` succeed, the call for `pod`, the `j`-th
eligible pod (0-based), fails, and `j` is below the batch cap: the eviction
calls of the iteration are exactly those for eligible pods `0..j`, in order,
no eligible pod after `j` is contacted, and the reported kill count is `j`;
this holds in batch mode and outside it.  With `batchMode = false` the
iteration does not return: it sleeps for `Interval`, and the run goes on with
iteration `n + 1`, which starts with the selector lookup. -/
theorem eviction_failure_aborts_batch_only (lib : Lib) (world : Nat → Cluster)
    (t : TargetInfo) (n fuel : Nat) (call : Event) (sel : LabelSelector) (s : String)
    (pods : List Pod) (pre : List (Nat × Pod)) (i : Nat) (pod : Pod) (err : String)
    (post : List (Nat × Pod))
    (hrun : (loop lib world t false false n 0).2 = false)
    (hsel : lookupSelector lib (world n) t = some (call, some sel))
    (hconv : lib.LabelSelectorAsSelector sel = .ok s)
    (hlist : (world n).ListPods t.NameSpace s = .ok pods)
    (hcands : candidates (world n) t 0 pods = pre ++ (i, pod) :: post)
    (hpre : ∀ ip ∈ pre, (world n).Evict ip.1 ip.2 = none)
    (hfail : (world n).Evict i pod = some err)
    (hcap : t.BatchMaxKill ≤ 0 ∨ (pre.length : Int) < t.BatchMaxKill) :
    (∀ batchMode : Bool,
      (iteration lib (world n) t false batchMode).1 =
        [call, .listPods t.NameSpace s] ++
          (evictedTrace false (pre.map Prod.snd) ++
            [.evict pod, .log (.cantDelete pod.Name err)]) ++
          [.log (.killed t.NameSpace t.Kind t.Name (pre.length : Int)), passEnd t batchMode] ∧
      evictCalls (iteration lib (world n) t false batchMode).1
        = (eligible (world n) t pods).take (pre.length + 1) ∧
      (eligible (world n) t pods)[pre.length]? = some pod ∧
      reportedKills (iteration lib (world n) t false batchMode).1 = [(pre.length : Int)]) ∧
    (iteration lib (world n) t false false).2 = false ∧
    sleeps (iteration lib (world n) t false false).1 = [t.Interval] ∧
    (∃ rest, (performCheckAndKill lib world (n + (fuel + 2)) t false false).1 =
      startedEvent t :: (loop lib world t false false n 0).1 ++
        (iteration lib (world n) t false false).1 ++ call :: rest) := by
  have hit := fun b => iteration_fail lib (world n) t b call sel s pods pre i pod err post
    hsel hconv hlist hcands hpre hfail hcap
  have hel : eligible (world n) t pods = pre.map Prod.snd ++ pod :: post.map Prod.snd := by
    simp [eligible, hcands]
  have hquiet : selectorLookups (evictedTrace false (pre.map Prod.snd) ++
        [.evict pod, .log (.cantDelete pod.Name err)]) = [] ∧
      listCalls (evictedTrace false (pre.map Prod.snd) ++
        [.evict pod, .log (.cantDelete pod.Name err)]) = [] ∧
      sleeps (evictedTrace false (pre.map Prod.snd) ++
        [.evict pod, .log (.cantDelete pod.Name err)]) = [] ∧
      reportedKills (evictedTrace false (pre.map Prod.snd) ++
        [.evict pod, .log (.cantDelete pod.Name err)]) = [] := by
    have := runCandidates_quiet (world n) t false (pre ++ (i, pod) :: post) 0
    rw [runCandidates_fail (world n) t pre i pod err post hfail hpre 0 (by simpa using hcap)]
      at this
    exact this
  refine ⟨?_, ?_, ?_, ?_⟩
  · intro b
    obtain ⟨f1, _, f3, _⟩ := frame_obs lib (world n) t b call _ s
      (evictedTrace false (pre.map Prod.snd) ++ [.evict pod, .log (.cantDelete pod.Name err)])
      (pre.length : Int) hsel
    refine ⟨by rw [hit b], ?_, ?_, ?_⟩
    · rw [hit b, f1, evictCalls_append, evictCalls_evictedTrace_real, hel]
      have hlen : pre.length + 1 = (pre.map Prod.snd ++ [pod]).length := by simp
      have happ : pre.map Prod.snd ++ pod :: post.map Prod.snd
          = (pre.map Prod.snd ++ [pod]) ++ post.map Prod.snd := by simp
      rw [happ, hlen, List.take_left]
      simp [evictCalls]
    · rw [hel, List.getElem?_append_right (by simp)]
      simp
    · rw [hit b, f3, hquiet.2.2.2]
      rfl
  · rw [hit false]
  · obtain ⟨_, _, _, _, _, f6⟩ := frame_obs lib (world n) t false call _ s
      (evictedTrace false (pre.map Prod.snd) ++ [.evict pod, .log (.cantDelete pod.Name err)])
      (pre.length : Int) hsel
    rw [hit false, f6, hquiet.2.2.1]
    rfl
  · obtain ⟨rest, hrest⟩ := performCheckAndKill_next lib world t false false n fuel hrun
      (by rw [hit false])
    obtain ⟨y, hy⟩ := lookupSelector_other lib (world n) (world (n + 1)) t call _ hsel
    obtain ⟨rest', hhead⟩ := iteration_head lib (world (n + 1)) t false false call y hy
    rw [hhead] at hrest
    exact ⟨rest' ++ rest, by rw [hrest]; simp⟩

/-- C4 at a concrete input: five eligible pods, no batch cap, the eviction of
the third one refused, in the second iteration of a run. -/
theorem eviction_failure_aborts_batch_only_witness :
    evictCalls (iteration demoLib (demoCluster "api" fiveOld failAtTwo (10 * Hour))
      (apiTarget 0) false false).1
      = (eligible (demoCluster "api" fiveOld failAtTwo (10 * Hour)) (apiTarget 0)
          fiveOld).take 3 ∧
    reportedKills (iteration demoLib (demoCluster "api" fiveOld failAtTwo (10 * Hour))
      (apiTarget 0) false false).1 = [2] :=
  have h := (eviction_failure_aborts_batch_only demoLib
    (fun _ => demoCluster "api" fiveOld failAtTwo (10 * Hour)) (apiTarget 0) 1 0
    (.getDeployment "ns1" "api") { MatchLabels := [("app", "api")] } "app=api" fiveOld
    [(0, runningPod "p0" (8 * Hour)), (1, runningPod "p1" (7 * Hour))]
    2 (runningPod "p2" (6 * Hour)) "disruption budget"
    [(3, runningPod "p3" (5 * Hour)), (4, runningPod "p4" (4 * Hour))]
    (by decide) rfl rfl rfl (by decide) (by decide) (by decide) (by decide)).1 false
  ⟨h.2.1, h.2.2.2⟩

/-- The observers on the trace of an iteration whose selector resolves. -/
theorem iteration_resolved_obs (lib : Lib) (c : Cluster) (t : TargetInfo)
    (dryrun batchMode : Bool) (call : Event) (sel : LabelSelector) (s : String)
    (hsel : lookupSelector lib c t = some (call, some sel))
    (hconv : lib.LabelSelectorAsSelector sel = .ok s) :
    selectorLookups (iteration lib c t dryrun batchMode).1 = [call] ∧
    listCalls (iteration lib c t dryrun batchMode).1 = [(t.NameSpace, s)] ∧
    sleeps (iteration lib c t dryrun batchMode).1 = (if batchMode then [] else [t.Interval]) ∧
    reportedKills (iteration lib c t dryrun batchMode).1
      = [(evictLoop c t dryrun 0 (podItems c t.NameSpace s) 0).2] ∧
    evictCalls (iteration lib c t dryrun batchMode).1
      = evictCalls (evictLoop c t dryrun 0 (podItems c t.NameSpace s) 0).1 := by
  rw [iteration_resolved lib c t dryrun batchMode call sel s hsel hconv]
  obtain ⟨h1, h2, h3, h4, h5, _⟩ := lookupSelector_call_obs lib c t call _ hsel
    (.listPods t.NameSpace s :: (passEvents c t dryrun s ++ [passEnd t batchMode]))
  obtain ⟨g1, g2, g3, g4, _, g6⟩ := passEnd_obs t batchMode []
  obtain ⟨p1, p2, p3, p4, p5⟩ := passEvents_obs c t dryrun s
  simp only [List.cons_append, List.nil_append, List.append_assoc] at *
  rw [h1, h2, h3, h4, h5]
  simp [evictCalls, reportedKills, selectorLookups, listCalls, sleeps,
    evictCalls_append, reportedKills_append, selectorLookups_append,
    listCalls_append, sleeps_append, g1, g2, g3, g4, g6, p1, p2, p3, p4, p5]

/-! ### Termination -/

/-- A lookup for a kind outside the three supported ones takes the `default`
branch. -/
theorem lookupSelector_unsupported (lib : Lib) (c : Cluster) (t : TargetInfo)
    (h : TargetKind.ToLower lib t.Kind ≠ DAEMONSET ∧ TargetKind.ToLower lib t.Kind ≠ DEPLOYMENT ∧
      TargetKind.ToLower lib t.Kind ≠ STATEFULSET) :
    lookupSelector lib c t = none := by
  simp [lookupSelector, h.1, h.2.1, h.2.2]

/-- C6: for a target whose kind, lower-cased, is none of `daemonset`,
`deployment`, `statefulset`, and for a target whose selector lookup returns no
selector (the controller object is missing, its fetch failed, or it has no
selector), `performCheckAndKill` returns in its first iteration, for any fuel
of at least one iteration and whatever `dryrun` and `batchMode` are: its trace
is the start-up line, the events of that one iteration and the deferred
events, with no pod-listing call, no eviction call and no sleep; the iteration
is the "not a supported kind" line alone (no lookup call at all) in the first
case, and the lookup call followed by the "selector is nil" line in the
second. -/
theorem unsupported_or_unresolved_terminates (lib : Lib) (world : Nat → Cluster)
    (t : TargetInfo) (dryrun batchMode : Bool) (fuel : Nat)
    (h : (TargetKind.ToLower lib t.Kind ≠ DAEMONSET ∧ TargetKind.ToLower lib t.Kind ≠ DEPLOYMENT ∧
        TargetKind.ToLower lib t.Kind ≠ STATEFULSET) ∨
      (∃ call, lookupSelector lib (world 0) t = some (call, none))) :
    performCheckAndKill lib world (fuel + 1) t dryrun batchMode =
      (startedEvent t :: (iteration lib (world 0) t dryrun batchMode).1 ++ deferredEvents t,
       true) ∧
    listCalls (performCheckAndKill lib world (fuel + 1) t dryrun batchMode).1 = [] ∧
    evictCalls (performCheckAndKill lib world (fuel + 1) t dryrun batchMode).1 = [] ∧
    sleeps (performCheckAndKill lib world (fuel + 1) t dryrun batchMode).1 = [] ∧
    ((TargetKind.ToLower lib t.Kind ≠ DAEMONSET ∧ TargetKind.ToLower lib t.Kind ≠ DEPLOYMENT ∧
        TargetKind.ToLower lib t.Kind ≠ STATEFULSET) →
      (iteration lib (world 0) t dryrun batchMode).1 = [.log (.unsupportedKind t.Kind)]) ∧
    (∀ call, lookupSelector lib (world 0) t = some (call, none) →
      (iteration lib (world 0) t dryrun batchMode).1 =
        [call, .log (.selectorNil t.NameSpace t.Kind t.Name)]) := by
  have hun : lookupSelector lib (world 0) t = none →
      iteration lib (world 0) t dryrun batchMode = ([.log (.unsupportedKind t.Kind)], true) := by
    intro hn
    unfold iteration
    rw [hn]
  have hnil : ∀ call, lookupSelector lib (world 0) t = some (call, none) →
      iteration lib (world 0) t dryrun batchMode =
        ([call, .log (.selectorNil t.NameSpace t.Kind t.Name)], true) := by
    intro call hc
    unfold iteration
    rw [hc]
  have hret : (iteration lib (world 0) t dryrun batchMode).2 = true := by
    rcases h with h | ⟨call, h⟩
    · rw [hun (lookupSelector_unsupported lib (world 0) t h)]
    · rw [hnil call h]
  have hperf : performCheckAndKill lib world (fuel + 1) t dryrun batchMode =
      (startedEvent t :: (iteration lib (world 0) t dryrun batchMode).1 ++ deferredEvents t,
       true) := by
    simp only [performCheckAndKill, loop_return lib world t dryrun batchMode fuel 0 hret]
    simp
  refine ⟨hperf, ?_, ?_, ?_, ?_, ?_⟩
  · rw [hperf]
    rcases h with h | ⟨call, h⟩
    · rw [hun (lookupSelector_unsupported lib (world 0) t h)]
      simp [listCalls, startedEvent, deferredEvents]
    · rw [hnil call h]
      rcases lookupSelector_call lib (world 0) t call _ h with hc | hc | hc <;> subst hc <;>
        simp [listCalls, startedEvent, deferredEvents]
  · rw [hperf]
    rcases h with h | ⟨call, h⟩
    · rw [hun (lookupSelector_unsupported lib (world 0) t h)]
      simp [evictCalls, startedEvent, deferredEvents]
    · rw [hnil call h]
      rcases lookupSelector_call lib (world 0) t call _ h with hc | hc | hc <;> subst hc <;>
        simp [evictCalls, startedEvent, deferredEvents]
  · rw [hperf]
    rcases h with h | ⟨call, h⟩
    · rw [hun (lookupSelector_unsupported lib (world 0) t h)]
      simp [sleeps, startedEvent, deferredEvents]
    · rw [hnil call h]
      rcases lookupSelector_call lib (world 0) t call _ h with hc | hc | hc <;> subst hc <;>
        simp [sleeps, startedEvent, deferredEvents]
  · intro hk
    rw [hun (lookupSelector_unsupported lib (world 0) t hk)]
  · intro call hc
    rw [hnil call hc]

/-- C6 at two concrete inputs: a target of kind `CronJob`, and a deployment
that cannot be fetched. -/
theorem unsupported_or_unresolved_terminates_witness :
    (performCheckAndKill demoLib (fun _ => demoCluster "api" fiveOld (fun _ _ => none) 0) 3
        { apiTarget 0 with Kind := "CronJob" } false false).2 = true ∧
    listCalls (performCheckAndKill demoLib (fun _ => emptyCluster) 3 (apiTarget 0)
        false false).1 = [] :=
  ⟨congrArg Prod.snd (unsupported_or_unresolved_terminates demoLib
      (fun _ => demoCluster "api" fiveOld (fun _ _ => none) 0)
      { apiTarget 0 with Kind := "CronJob" } false false 2 (Or.inl (by decide))).1,
   (unsupported_or_unresolved_terminates demoLib (fun _ => emptyCluster) (apiTarget 0)
      false false 2 (Or.inr ⟨.getDeployment "ns1" "api", rfl⟩)).2.1⟩

/-- C7: with `batchMode = true`, for a target whose selector resolves (the
lookup of the first iteration returns a selector that converts to `s`), and
whatever `Interval`, the listing (or its failure), the eviction outcomes and
`dryrun` are, `performCheckAndKill` returns after exactly one pass, for any
fuel of at least one iteration: its trace is the start-up line, one selector
lookup, one pod-listing call with `s`, one run of the eviction loop with its
kill report, the batch-mode line and the deferred events; it contains no
sleep and no second lookup or listing. -/
theorem batch_mode_single_pass (lib : Lib) (world : Nat → Cluster) (t : TargetInfo)
    (dryrun : Bool) (fuel : Nat) (call : Event) (sel : LabelSelector) (s : String)
    (hsel : lookupSelector lib (world 0) t = some (call, some sel))
    (hconv : lib.LabelSelectorAsSelector sel = .ok s) :
    performCheckAndKill lib world (fuel + 1) t dryrun true =
      (startedEvent t ::
        ([call, .listPods t.NameSpace s] ++
          (evictLoop (world 0) t dryrun 0 (podItems (world 0) t.NameSpace s) 0).1 ++
          [.log (.killed t.NameSpace t.Kind t.Name
              (evictLoop (world 0) t dryrun 0 (podItems (world 0) t.NameSpace s) 0).2),
            .log .batchModeExit]) ++ deferredEvents t,
       true) ∧
    selectorLookups (performCheckAndKill lib world (fuel + 1) t dryrun true).1 = [call] ∧
    listCalls (performCheckAndKill lib world (fuel + 1) t dryrun true).1 = [(t.NameSpace, s)] ∧
    sleeps (performCheckAndKill lib world (fuel + 1) t dryrun true).1 = [] ∧
    reportedKills (performCheckAndKill lib world (fuel + 1) t dryrun true).1
      = [(evictLoop (world 0) t dryrun 0 (podItems (world 0) t.NameSpace s) 0).2] := by
  have hit := iteration_resolved lib (world 0) t dryrun true call sel s hsel hconv
  obtain ⟨o1, o2, o3, o4, _⟩ := iteration_resolved_obs lib (world 0) t dryrun true call sel s
    hsel hconv
  have hperf : performCheckAndKill lib world (fuel + 1) t dryrun true =
      (startedEvent t :: (iteration lib (world 0) t dryrun true).1 ++ deferredEvents t,
       true) := by
    simp only [performCheckAndKill,
      loop_return lib world t dryrun true fuel 0 (by rw [hit])]
    simp
  refine ⟨?_, ?_, ?_, ?_, ?_⟩
  · rw [hperf, hit]
    simp [passEvents, passEnd]
  · rw [hperf]
    simp [selectorLookups, selectorLookups_append, startedEvent, deferredEvents, o1]
  · rw [hperf]
    simp [listCalls, listCalls_append, startedEvent, deferredEvents, o2]
  · rw [hperf]
    simp [sleeps, sleeps_append, startedEvent, deferredEvents, o3]
  · rw [hperf]
    simp [reportedKills, reportedKills_append, startedEvent, deferredEvents, o4]

/-- C7 at a concrete input: a batch-mode run over five eligible pods with an
interval of one minute and fuel for four iterations. -/
theorem batch_mode_single_pass_witness :
    selectorLookups (performCheckAndKill demoLib
      (fun _ => demoCluster "api" fiveOld failAtTwo (10 * Hour)) 4 (apiTarget 0)
      false true).1 = [.getDeployment "ns1" "api"] ∧
    sleeps (performCheckAndKill demoLib
      (fun _ => demoCluster "api" fiveOld failAtTwo (10 * Hour)) 4 (apiTarget 0)
      false true).1 = [] :=
  have h := batch_mode_single_pass demoLib
    (fun _ => demoCluster "api" fiveOld failAtTwo (10 * Hour)) (apiTarget 0) false 3
    (.getDeployment "ns1" "api") { MatchLabels := [("app", "api")] } "app=api" rfl rfl
  ⟨h.2.1, h.2.2.2.1⟩

/-- C8: when the pod-listing call of an iteration fails (iteration `n`,
reached because the first `n` iterations did not return), the iteration is
the one it would be with an empty listing: lookup, listing call, no eviction
call, a reported kill count of 0, and then the usual end of a pass.  The
failure does not end the loop: with `batchMode = false` the iteration does not
return but sleeps for `Interval`, and the run goes on with iteration `n + 1`,
which starts with the selector lookup. -/
theorem listing_failure_tolerated (lib : Lib) (world : Nat → Cluster) (t : TargetInfo)
    (dryrun : Bool) (n fuel : Nat) (call : Event) (sel : LabelSelector) (s err : String)
    (hrun : (loop lib world t dryrun false n 0).2 = false)
    (hsel : lookupSelector lib (world n) t = some (call, some sel))
    (hconv : lib.LabelSelectorAsSelector sel = .ok s)
    (hlist : (world n).ListPods t.NameSpace s = .error err) :
    (∀ batchMode : Bool,
      iteration lib (world n) t dryrun batchMode =
        ([call, .listPods t.NameSpace s, .log (.killed t.NameSpace t.Kind t.Name 0),
          passEnd t batchMode], batchMode) ∧
      iteration lib (world n) t dryrun batchMode =
        iteration lib (withEmptyListing (world n)) t dryrun batchMode ∧
      evictCalls (iteration lib (world n) t dryrun batchMode).1 = [] ∧
      reportedKills (iteration lib (world n) t dryrun batchMode).1 = [0]) ∧
    (iteration lib (world n) t dryrun false).2 = false ∧
    sleeps (iteration lib (world n) t dryrun false).1 = [t.Interval] ∧
    (∃ rest, (performCheckAndKill lib world (n + (fuel + 2)) t dryrun false).1 =
      startedEvent t :: (loop lib world t dryrun false n 0).1 ++
        [call, .listPods t.NameSpace s, .log (.killed t.NameSpace t.Kind t.Name 0),
          .sleep t.Interval] ++ call :: rest) := by
  have hit : ∀ b, iteration lib (world n) t dryrun b =
      ([call, .listPods t.NameSpace s, .log (.killed t.NameSpace t.Kind t.Name 0),
        passEnd t b], b) := by
    intro b
    rw [iteration_resolved lib (world n) t dryrun b call sel s hsel hconv]
    simp [passEvents, podItems, hlist, evictLoop]
  have hsel' : lookupSelector lib (withEmptyListing (world n)) t = some (call, some sel) :=
    hsel
  have hit' : ∀ b, iteration lib (withEmptyListing (world n)) t dryrun b =
      ([call, .listPods t.NameSpace s, .log (.killed t.NameSpace t.Kind t.Name 0),
        passEnd t b], b) := by
    intro b
    rw [iteration_resolved lib (withEmptyListing (world n)) t dryrun b call sel s hsel' hconv]
    simp [passEvents, podItems, evictLoop, withEmptyListing]
  obtain ⟨o1, o2, o3, o4, o5⟩ := iteration_resolved_obs lib (world n) t dryrun false call sel s
    hsel hconv
  refine ⟨?_, ?_, ?_, ?_⟩
  · intro b
    obtain ⟨_, _, _, p4, p5⟩ := iteration_resolved_obs lib (world n) t dryrun b call sel s
      hsel hconv
    refine ⟨hit b, ?_, ?_, ?_⟩
    · rw [hit b, hit' b]
    · rw [p5]
      simp [podItems, hlist, evictLoop, evictCalls]
    · rw [p4]
      simp [podItems, hlist, evictLoop]
  · rw [hit false]
  · rw [o3]
    rfl
  · obtain ⟨rest, hrest⟩ := performCheckAndKill_next lib world t dryrun false n fuel hrun
      (by rw [hit false])
    obtain ⟨y, hy⟩ := lookupSelector_other lib (world n) (world (n + 1)) t call _ hsel
    obtain ⟨rest', hhead⟩ := iteration_head lib (world (n + 1)) t dryrun false call y hy
    rw [hhead, hit false] at hrest
    exact ⟨rest' ++ rest, by rw [hrest]; simp [passEnd]⟩

/-- C8 at a concrete input: a cluster whose listing call times out. -/
theorem listing_failure_tolerated_witness :
    iteration demoLib brokenListCluster (apiTarget 0) false false =
      ([.getDeployment "ns1" "api", .listPods "ns1" "app=api",
        .log (.killed "ns1" "Deployment" "api" 0), .sleep (60 * Second)], false) :=
  ((listing_failure_tolerated demoLib (fun _ => brokenListCluster) (apiTarget 0) false 1 0
    (.getDeployment "ns1" "api") { MatchLabels := [("app", "api")] } "app=api" "timeout"
    (by decide) rfl rfl rfl).1 false).1

/-- The selector lookup returns what the cluster answers to the `Get` call of
the target's kind: the `Spec.Selector` of the fetched controller, and `nil`
when the fetch fails.  Here `get` and `mk` are the `Get` call and its event
for the kind the target lower-cases to. -/
theorem lookupSelector_of_get (lib : Lib) (c : Cluster) (t : TargetInfo)
    (get : Cluster → String → String → Except String (Option LabelSelector))
    (mk : String → String → Event)
    (hkind : (TargetKind.ToLower lib t.Kind = DAEMONSET ∧ get = Cluster.GetDaemonSet ∧
        mk = Event.getDaemonSet) ∨
      (TargetKind.ToLower lib t.Kind = DEPLOYMENT ∧ get = Cluster.GetDeployment ∧
        mk = Event.getDeployment) ∨
      (TargetKind.ToLower lib t.Kind = STATEFULSET ∧ get = Cluster.GetStatefulSet ∧
        mk = Event.getStatefulSet)) :
    lookupSelector lib c t = some (mk t.NameSpace t.Name,
      match get c t.NameSpace t.Name with
      | .error _ => none
      | .ok selector => selector) := by
  have h1 : DEPLOYMENT ≠ DAEMONSET := by decide
  have h2 : STATEFULSET ≠ DAEMONSET := by decide
  have h3 : STATEFULSET ≠ DEPLOYMENT := by decide
  rcases hkind with ⟨hk, rfl, rfl⟩ | ⟨hk, rfl, rfl⟩ | ⟨hk, rfl, rfl⟩
  · simp only [lookupSelector, hk, if_true, getDaemonsetPodSelector]
  · simp only [lookupSelector, hk, h1, if_false, if_true, getDeploymentPodSelector]
  · simp only [lookupSelector, hk, h2, h3, if_false, if_true, getStatefulsetPodSelector]

/-- Two consecutive iterations whose lookups return selectors: each lists with
the selector of its own lookup. -/
theorem two_iterations_resolved (lib : Lib) (world : Nat → Cluster)
    (t : TargetInfo) (dryrun : Bool) (n fuel : Nat) (call : Event) (sel : LabelSelector)
    (s : String) (call2 : Event) (sel2 : LabelSelector) (s2 : String)
    (hrun : (loop lib world t dryrun false n 0).2 = false)
    (hsel : lookupSelector lib (world n) t = some (call, some sel))
    (hconv : lib.LabelSelectorAsSelector sel = .ok s)
    (hsel2 : lookupSelector lib (world (n + 1)) t = some (call2, some sel2))
    (hconv2 : lib.LabelSelectorAsSelector sel2 = .ok s2) :
    (∀ batchMode : Bool,
      (iteration lib (world n) t dryrun batchMode).1 =
        [call, .listPods t.NameSpace s] ++ passEvents (world n) t dryrun s ++
          [passEnd t batchMode] ∧
      selectorLookups (iteration lib (world n) t dryrun batchMode).1 = [call] ∧
      listCalls (iteration lib (world n) t dryrun batchMode).1 = [(t.NameSpace, s)]) ∧
    call2 = call ∧
    (∃ rest, (performCheckAndKill lib world (n + (fuel + 2)) t dryrun false).1 =
      startedEvent t :: (loop lib world t dryrun false n 0).1 ++
        ([call, .listPods t.NameSpace s] ++ passEvents (world n) t dryrun s ++
          [.sleep t.Interval]) ++
        ([call, .listPods t.NameSpace s2] ++ passEvents (world (n + 1)) t dryrun s2 ++
          [.sleep t.Interval]) ++ rest) ∧
    selectorLookups ((iteration lib (world n) t dryrun false).1 ++
        (iteration lib (world (n + 1)) t dryrun false).1) = [call, call] ∧
    listCalls ((iteration lib (world n) t dryrun false).1 ++
        (iteration lib (world (n + 1)) t dryrun false).1)
      = [(t.NameSpace, s), (t.NameSpace, s2)] := by
  have hcall : call2 = call := by
    obtain ⟨y, hy⟩ := lookupSelector_other lib (world n) (world (n + 1)) t call _ hsel
    rw [hy] at hsel2
    simp at hsel2
    exact hsel2.1.symm
  subst hcall
  obtain ⟨o1, o2, _⟩ := iteration_resolved_obs lib (world n) t dryrun false call2 sel s
    hsel hconv
  obtain ⟨q1, q2, _⟩ := iteration_resolved_obs lib (world (n + 1)) t dryrun false call2 sel2 s2
    hsel2 hconv2
  refine ⟨?_, rfl, ?_, ?_, ?_⟩
  · intro b
    obtain ⟨p1, p2, _⟩ := iteration_resolved_obs lib (world n) t dryrun b call2 sel s
      hsel hconv
    exact ⟨by rw [iteration_resolved lib (world n) t dryrun b call2 sel s hsel hconv], p1, p2⟩
  · obtain ⟨rest, hrest⟩ := performCheckAndKill_next lib world t dryrun false n fuel hrun
      (by rw [iteration_resolved lib (world n) t dryrun false call2 sel s hsel hconv])
    rw [iteration_resolved lib (world n) t dryrun false call2 sel s hsel hconv,
      iteration_resolved lib (world (n + 1)) t dryrun false call2 sel2 s2 hsel2 hconv2] at hrest
    exact ⟨rest, by rw [hrest]; simp [passEnd]⟩
  · rw [selectorLookups_append, o1, q1]
    rfl
  · rw [listCalls_append, o2, q2]
    rfl

/-- C10: let the target be of a supported kind, with `get` the controller
`Get` call of that kind and `mk` its event, and let the cluster answer that
call with a controller whose selector is `sel` during iteration `n` and with
one whose selector is `sel2` during iteration `n + 1` (both convertible, to
`s` and `s2`).  Then iteration `n` reaches the listing step, the selector is
looked up once, as its first event, the lookup returns `sel`, the selector
the controller has at that moment, and the one listing call of the iteration
is made with `s`; this holds in batch mode and outside it.  When the first
`n` iterations did not return and `batchMode = false`, the run continues
after the sleep with a fresh lookup, which returns `sel2`, and with a listing
call made with `s2`: the selector the controller has during iteration
`n + 1`, not the one fetched in iteration `n`. -/
theorem selector_looked_up_every_iteration (lib : Lib) (world : Nat → Cluster)
    (t : TargetInfo) (dryrun : Bool) (n fuel : Nat)
    (get : Cluster → String → String → Except String (Option LabelSelector))
    (mk : String → String → Event)
    (sel : LabelSelector) (s : String) (sel2 : LabelSelector) (s2 : String)
    (hkind : (TargetKind.ToLower lib t.Kind = DAEMONSET ∧ get = Cluster.GetDaemonSet ∧
        mk = Event.getDaemonSet) ∨
      (TargetKind.ToLower lib t.Kind = DEPLOYMENT ∧ get = Cluster.GetDeployment ∧
        mk = Event.getDeployment) ∨
      (TargetKind.ToLower lib t.Kind = STATEFULSET ∧ get = Cluster.GetStatefulSet ∧
        mk = Event.getStatefulSet))
    (hrun : (loop lib world t dryrun false n 0).2 = false)
    (hget : get (world n) t.NameSpace t.Name = .ok (some sel))
    (hconv : lib.LabelSelectorAsSelector sel = .ok s)
    (hget2 : get (world (n + 1)) t.NameSpace t.Name = .ok (some sel2))
    (hconv2 : lib.LabelSelectorAsSelector sel2 = .ok s2) :
    lookupSelector lib (world n) t = some (mk t.NameSpace t.Name, some sel) ∧
    lookupSelector lib (world (n + 1)) t = some (mk t.NameSpace t.Name, some sel2) ∧
    (∀ batchMode : Bool,
      (iteration lib (world n) t dryrun batchMode).1 =
        [mk t.NameSpace t.Name, .listPods t.NameSpace s] ++ passEvents (world n) t dryrun s ++
          [passEnd t batchMode] ∧
      selectorLookups (iteration lib (world n) t dryrun batchMode).1
        = [mk t.NameSpace t.Name] ∧
      listCalls (iteration lib (world n) t dryrun batchMode).1 = [(t.NameSpace, s)]) ∧
    (∃ rest, (performCheckAndKill lib world (n + (fuel + 2)) t dryrun false).1 =
      startedEvent t :: (loop lib world t dryrun false n 0).1 ++
        ([mk t.NameSpace t.Name, .listPods t.NameSpace s] ++ passEvents (world n) t dryrun s ++
          [.sleep t.Interval]) ++
        ([mk t.NameSpace t.Name, .listPods t.NameSpace s2] ++
          passEvents (world (n + 1)) t dryrun s2 ++ [.sleep t.Interval]) ++ rest) ∧
    selectorLookups ((iteration lib (world n) t dryrun false).1 ++
        (iteration lib (world (n + 1)) t dryrun false).1)
      = [mk t.NameSpace t.Name, mk t.NameSpace t.Name] ∧
    listCalls ((iteration lib (world n) t dryrun false).1 ++
        (iteration lib (world (n + 1)) t dryrun false).1)
      = [(t.NameSpace, s), (t.NameSpace, s2)] := by
  have hsel : lookupSelector lib (world n) t = some (mk t.NameSpace t.Name, some sel) := by
    rw [lookupSelector_of_get lib (world n) t get mk hkind, hget]
  have hsel2 : lookupSelector lib (world (n + 1)) t
      = some (mk t.NameSpace t.Name, some sel2) := by
    rw [lookupSelector_of_get lib (world (n + 1)) t get mk hkind, hget2]
  obtain ⟨h1, _, h3, h4, h5⟩ := two_iterations_resolved lib world t dryrun n fuel
    (mk t.NameSpace t.Name) sel s (mk t.NameSpace t.Name) sel2 s2 hrun hsel hconv hsel2 hconv2
  exact ⟨hsel, hsel2, h1, h3, h4, h5⟩

/-- C10 at three concrete inputs: a stateful set, a daemon set and a
deployment, each relabelled between the first and the second iteration; the
second listing call uses the new selector of the controller. -/
theorem selector_looked_up_every_iteration_witness :
    listCalls ((iteration demoLib (relabelledWorld 0) dbTarget false false).1 ++
        (iteration demoLib (relabelledWorld 1) dbTarget false false).1)
      = [("ns1", "app=db"), ("ns1", "app=db-v2")] ∧
    listCalls ((iteration demoLib (relabelledWorld 0) agentTarget false false).1 ++
        (iteration demoLib (relabelledWorld 1) agentTarget false false).1)
      = [("ns1", "app=agent"), ("ns1", "app=agent-v2")] ∧
    listCalls ((iteration demoLib (relabelledWorld 0) (apiTarget 1) false false).1 ++
        (iteration demoLib (relabelledWorld 1) (apiTarget 1) false false).1)
      = [("ns1", "app=api"), ("ns1", "app=api-v2")] :=
  ⟨(selector_looked_up_every_iteration demoLib relabelledWorld dbTarget false 0 0
      Cluster.GetStatefulSet Event.getStatefulSet
      { MatchLabels := [("app", "db")] } "app=db"
      { MatchLabels := [("app", "db-v2")] } "app=db-v2"
      (Or.inr (Or.inr ⟨by decide, rfl, rfl⟩)) rfl rfl rfl rfl rfl).2.2.2.2.2,
   (selector_looked_up_every_iteration demoLib relabelledWorld agentTarget false 0 0
      Cluster.GetDaemonSet Event.getDaemonSet
      { MatchLabels := [("app", "agent")] } "app=agent"
      { MatchLabels := [("app", "agent-v2")] } "app=agent-v2"
      (Or.inl ⟨by decide, rfl, rfl⟩) rfl rfl rfl rfl rfl).2.2.2.2.2,
   (selector_looked_up_every_iteration demoLib relabelledWorld (apiTarget 1) false 0 0
      Cluster.GetDeployment Event.getDeployment
      { MatchLabels := [("app", "api")] } "app=api"
      { MatchLabels := [("app", "api-v2")] } "app=api-v2"
      (Or.inr (Or.inl ⟨by decide, rfl, rfl⟩)) rfl rfl rfl rfl rfl).2.2.2.2.2⟩

/-! ### Configuration normalization -/

/-- The result of `getConfig` when the file is read and parsed. -/
theorem getConfig_ok (src : ConfigSource) (configFile : String) (parsed : Config)
    (hread : src.ReadFile (if src.CONFIG_PATH = "" then "/config/config.yaml"
      else src.CONFIG_PATH) = .ok configFile)
    (hparse : src.Unmarshal configFile = .ok parsed) :
    getConfig src = .ok
      { Dryrun := parsed.Dryrun, BatchMode := parsed.BatchMode,
        DefaultInterval := if parsed.DefaultInterval < 10 * Second then 10 * Second
          else parsed.DefaultInterval,
        Targets := parsed.Targets.map (clampTarget
          (if parsed.DefaultInterval < 10 * Second then 10 * Second
            else parsed.DefaultInterval)) } := by
  unfold getConfig
  simp only [hread, hparse]
  split_ifs <;> rfl

/-- The floors of a clamped target, given a default interval at the floor. -/
theorem clampTarget_floors (d : Int) (t : TargetInfo) (hd : 10 * Second ≤ d) :
    10 * Second ≤ (clampTarget d t).MaxLife ∧ 10 * Second ≤ (clampTarget d t).Interval := by
  unfold clampTarget
  by_cases h1 : t.MaxLife < 10 * Second <;> by_cases h2 : t.Interval < 10 * Second <;>
    simp [h1, h2] <;> omega

/-- The clamp leaves `BatchMaxKill` alone. -/
theorem clampTarget_batchMaxKill (d : Int) (t : TargetInfo) :
    (clampTarget d t).BatchMaxKill = t.BatchMaxKill := by
  unfold clampTarget
  by_cases h1 : t.MaxLife < 10 * Second <;> by_cases h2 : t.Interval < 10 * Second <;>
    simp [h1, h2]

/-- C5: whenever the configuration file is read and parsed, whatever the
parsed `DefaultInterval` and per-target `MaxLife` and `Interval` are (zero,
unset and negative values included), `getConfig` returns a configuration that
keeps every parsed target and in which every target's `MaxLife` is at least
10 seconds and every target's `Interval` is at least 10 seconds (and so is
`DefaultInterval`). -/
theorem getConfig_floors (src : ConfigSource) (configFile : String) (parsed : Config)
    (hread : src.ReadFile (if src.CONFIG_PATH = "" then "/config/config.yaml"
      else src.CONFIG_PATH) = .ok configFile)
    (hparse : src.Unmarshal configFile = .ok parsed) :
    ∃ config, getConfig src = .ok config ∧
      config.Targets.length = parsed.Targets.length ∧
      10 * Second ≤ config.DefaultInterval ∧
      ∀ t ∈ config.Targets, 10 * Second ≤ t.MaxLife ∧ 10 * Second ≤ t.Interval := by
  refine ⟨_, getConfig_ok src configFile parsed hread hparse, by simp, ?_, ?_⟩
  · simp only
    split_ifs <;> omega
  · intro t ht
    simp only [List.mem_map] at ht
    obtain ⟨t0, _, rfl⟩ := ht
    exact clampTarget_floors _ t0 (by split_ifs <;> omega)

/-- C5 at a concrete input: a target parsed with `MaxLife`, `Interval` and
`DefaultInterval` all zero. -/
theorem getConfig_floors_witness :
    ∃ config, getConfig negativeCapSource = .ok config ∧
      config.Targets.length = 1 ∧ 10 * Second ≤ config.DefaultInterval ∧
      ∀ t ∈ config.Targets, 10 * Second ≤ t.MaxLife ∧ 10 * Second ≤ t.Interval :=
  getConfig_floors negativeCapSource "batch_max_kill: -1" negativeCapConfig rfl rfl

/-- C9, as stated, fails: a configuration parsed with `batch_max_kill: -1`
comes out of `getConfig` with a target whose `BatchMaxKill` is still -1. -/
theorem getConfig_keeps_negative_batchMaxKill :
    getConfig negativeCapSource = .ok
      { Dryrun := false, BatchMode := false, DefaultInterval := 10 * Second,
        Targets := [{ Kind := "Deployment", NameSpace := "ns1", Name := "api",
                      MaxLife := 10 * Second, Interval := 10 * Second,
                      BatchMaxKill := -1 }] } ∧
    ¬ (∀ config, getConfig negativeCapSource = .ok config →
        ∀ t ∈ config.Targets, 0 ≤ t.BatchMaxKill) := by
  have h : getConfig negativeCapSource = .ok
      { Dryrun := false, BatchMode := false, DefaultInterval := 10 * Second,
        Targets := [{ Kind := "Deployment", NameSpace := "ns1", Name := "api",
                      MaxLife := 10 * Second, Interval := 10 * Second,
                      BatchMaxKill := -1 }] } := by
    rw [getConfig_ok negativeCapSource "batch_max_kill: -1" negativeCapConfig rfl rfl]
    simp [negativeCapConfig, clampTarget, Second]
  refine ⟨h, fun hall => ?_⟩
  have := hall _ h _ (List.mem_singleton.mpr rfl)
  simp at this

/-- C9, amended: whenever the configuration file is read and parsed,
`getConfig` returns a configuration in which every target's `BatchMaxKill` is
the parsed value, unchanged; so after normalization every `BatchMaxKill` is
non-negative exactly when every parsed `batch_max_kill` is. -/
theorem getConfig_preserves_batchMaxKill (src : ConfigSource) (configFile : String)
    (parsed : Config)
    (hread : src.ReadFile (if src.CONFIG_PATH = "" then "/config/config.yaml"
      else src.CONFIG_PATH) = .ok configFile)
    (hparse : src.Unmarshal configFile = .ok parsed) :
    ∃ config, getConfig src = .ok config ∧
      config.Targets.map (fun t => t.BatchMaxKill)
        = parsed.Targets.map (fun t => t.BatchMaxKill) ∧
      ((∀ t ∈ config.Targets, 0 ≤ t.BatchMaxKill) ↔
        (∀ t ∈ parsed.Targets, 0 ≤ t.BatchMaxKill)) := by
  refine ⟨_, getConfig_ok src configFile parsed hread hparse, ?_, ?_⟩
  · simp [List.map_map, Function.comp_def, clampTarget_batchMaxKill]
  · simp [clampTarget_batchMaxKill]

/-- C9, amended, at a concrete input: the target parsed with a cap of -1. -/
theorem getConfig_preserves_batchMaxKill_witness :
    ∃ config, getConfig negativeCapSource = .ok config ∧
      config.Targets.map (fun t => t.BatchMaxKill) = [-1] :=
  have h := getConfig_preserves_batchMaxKill negativeCapSource "batch_max_kill: -1"
    negativeCapConfig rfl rfl
  h.imp fun _ hc => ⟨hc.1, hc.2.1⟩

end OldPodKiller
